import Mathlib

/-
Verification development for the `keystone_rxt` Rackspace authentication
plugin (`keystone_rxt/rackspace.py`).

The Python module is shallowly embedded:
* JSON-like Python dictionaries/lists/strings become the inductive `JVal`;
* the two module-level dogpile cache regions (`RXT_SESSION_CACHE`,
  `RXT_SERVICE_CACHE`) and the class-level mutable header dictionary
  `RXTv2Credentials.rxt_headers` become the explicit process state
  `ProcState` threaded through every call;
* the upstream Rackspace identity endpoint is an oracle
  `Upstream : Nat -> UpReply` giving the reply to the n-th POST of a run;
* Python exceptions become the explicit error type `RxtErr`, with
  `except KeyError` / `except requests.HTTPError` handlers translated as
  matches on the corresponding constructors.

External collaborators are modelled at their interface boundary only:
`hashlib.sha224` as an injective tagging of its input, `dateutil.parser`
timestamps as integer-valued strings, and the keystone federation mapping
(`mapped.handle_scoped_token` / `handle_unscoped_token`) as a function of
the per-request federation environment.
-/

set_option autoImplicit false

namespace Rxt

/-- JSON-like values: the payloads, bodies and catalogs handled by the
plugin are Python dicts, lists and strings. -/
inductive JVal where
  | str (s : String)
  | obj (kvs : List (String × JVal))
  | arr (xs : List JVal)

/-- Python `v == "lit"` where `v` is an arbitrary value: equal strings
compare equal, values of a different type compare unequal. -/
def jEqStr (v : JVal) (s : String) : Bool :=
  match v with
  | .str t => t == s
  | _ => false

/-- Python truthiness for the values of `JVal` (`if x:`): empty strings,
empty dicts and empty lists are falsy. -/
def truthy : JVal → Bool
  | .str s => !(s == "")
  | .obj kvs => !kvs.isEmpty
  | .arr xs => !xs.isEmpty

/-- Truthiness of an optional string (`None` is falsy, `""` is falsy). -/
def truthyS : Option String → Bool
  | none => false
  | some s => !(s == "")

/-- Truthiness of an optional `JVal` (`None` is falsy). -/
def truthyJ : Option JVal → Bool
  | none => false
  | some v => truthy v

/-- Association-list lookup, modelling Python `d[k]` presence and
`d.get(k)`; dicts keep insertion order. -/
def lookupA {β : Type} : List (String × β) → String → Option β
  | [], _ => none
  | (k, v) :: rest, key => if k == key then some v else lookupA rest key

/-- Association-list update, modelling Python `d[k] = v` (replace in
place, append new keys at the end). -/
def setA {β : Type} : List (String × β) → String → β → List (String × β)
  | [], key, v => [(key, v)]
  | (k, w) :: rest, key, v =>
    if k == key then (k, v) :: rest else (k, w) :: setA rest key v

/-- Association-list deletion, modelling the cache region `delete`. -/
def delA {β : Type} : List (String × β) → String → List (String × β)
  | [], _ => []
  | (k, w) :: rest, key =>
    if k == key then delA rest key else (k, w) :: delA rest key

/-- Python exception classes relevant to the module.  `keyError` and
`typeError` arise from subscripting; `unauthorized` is
`keystone.exception.Unauthorized`; `httpError` is `requests.HTTPError`
(raised by `raise_for_status`); `jsonError` is the `ValueError` raised by
`r.json()` on a non-JSON body; `dateParseError` is the error raised by
`dateutil.parser.parse` on an unparsable timestamp; `connectionError` is
a `requests` connection-level failure (timeout / refused), which is NOT
a subclass of `requests.HTTPError`. -/
inductive RxtErr where
  | keyError
  | typeError
  | unauthorized (msg : String)
  | httpError
  | jsonError
  | dateParseError
  | connectionError
  | recursionError
deriving DecidableEq

/-- Python subscripting `v[k]`: `KeyError` when the key is missing from a
dict, `TypeError` when the value is not a dict. -/
def getKey : JVal → String → Except RxtErr JVal
  | .obj kvs, k =>
    match lookupA kvs k with
    | some v => .ok v
    | none => .error .keyError
  | _, _ => .error .typeError

/-- A chain of subscripts `v[k1][k2]...`. -/
def getChain : JVal → List String → Except RxtErr JVal
  | v, [] => .ok v
  | v, k :: ks =>
    match getKey v k with
    | .ok w => getChain w ks
    | .error e => .error e

/-- Python `str` check: the module calls string methods (`encode`,
`split`) and `re.match` on these values; a non-string raises
(`TypeError`/`AttributeError`, both modelled as `typeError`). -/
def asString : JVal → Except RxtErr String
  | .str s => .ok s
  | _ => .error .typeError

/-- `hashlib.sha224(... .encode("utf-8")).hexdigest()`, modelled at the
interface boundary as an injective tagging of the input string. -/
def sha224_hexdigest (s : String) : String := "sha224-" ++ s

/-- A hexadecimal character, as matched by the class `[a-fA-F0-9]` of
`RXTv2Credentials.hash_types`. -/
def isHexChar (c : Char) : Bool :=
  (('0' ≤ c && c ≤ '9') || ('a' ≤ c && c ≤ 'f') || ('A' ≤ c && c ≤ 'F'))

/-- `re.match(r"^[a-fA-F0-9]{n}$", s)`: the string is exactly `n` hex
characters, or — Python `$` also matches just before a final newline —
`n` hex characters followed by one `(Char.ofNat 10)`. -/
def matchesHexLen (n : Nat) (s : String) : Bool :=
  let cs := s.data
  (cs.length == n && cs.all isHexChar) ||
    (cs.length == n + 1 && (cs.take n).all isHexChar &&
      cs.getLast? == some (Char.ofNat 10))

/-- The `for hash_type in self.hash_types` loop of `__enter__`: the
password matches one of the 32/40/64-character hexadecimal patterns. -/
def hashTypesMatch (s : String) : Bool :=
  [32, 40, 64].any (fun n => matchesHexLen n s)

/-- The single-quote character used by the `sessionId='...'` pattern. -/
def sq : Char := Char.ofNat 39

/-- The literal part `sessionId='` of the `_sessionID` regex. -/
def sessLit : List Char := ("sessionId=".data) ++ [sq]

/-- Strip a literal prefix from a character list, or fail. -/
def stripLit : List Char → List Char → Option (List Char)
  | [], s => some s
  | _ :: _, [] => none
  | p :: ps, c :: cs => if c == p then stripLit ps cs else none

/-- The lazy tail `.*?[^\\]'` of the `_sessionID` regex, by backtracking:
first try to finish the match with one non-backslash character followed
by a closing quote, otherwise extend the lazy `.*?` by one non-newline
character.  Returns the capture group and the remaining input. -/
def lazyCapture : List Char → List Char → Option (List Char × List Char)
  | _, [] => none
  | acc, c :: rest =>
    match rest with
    | [] => none
    | q :: rest2 =>
      if !(c == Char.ofNat 92) && q == sq then some (acc ++ [c], rest2)
      else if !(c == Char.ofNat 10) then lazyCapture (acc ++ [c]) rest
      else none

/-- `re.findall(r"sessionId='(.*?[^\\])'", s)`: scan left to right for the
literal `sessionId='`, run the lazy tail there, and continue after each
successful match (non-overlapping), collecting the capture groups.  The
fuel is an upper bound on the number of scanning steps; every step
consumes at least one input character. -/
def findAllSess : Nat → List Char → List String
  | 0, _ => []
  | _, [] => []
  | fuel + 1, c :: rest =>
    match stripLit sessLit (c :: rest) with
    | some after =>
      match lazyCapture [] after with
      | some (cap, rem) => String.mk cap :: findAllSess fuel rem
      | none => findAllSess fuel rest
    | none => findAllSess fuel rest

/-- Lexicographic (code-point) string comparison, as Python compares
`str` keys when sorting. -/
def strLeB : List Char → List Char → Bool
  | [], _ => true
  | _ :: _, [] => false
  | a :: as, b :: bs =>
    if a.toNat < b.toNat then true
    else if b.toNat < a.toNat then false
    else strLeB as bs

/-- Insert a `(key, dumped value)` pair into a key-sorted list. -/
def insertPair (p : String × String) : List (String × String) → List (String × String)
  | [] => [p]
  | q :: rest => if strLeB p.1.data q.1.data then p :: q :: rest else q :: insertPair p rest

/-- Sort pairs by key (`json.dumps(..., sort_keys=True)`). -/
def sortPairs : List (String × String) → List (String × String)
  | [] => []
  | p :: rest => insertPair p (sortPairs rest)

mutual

/-- `json.dumps(v, sort_keys=True)` (string escaping is not modelled:
the payloads in question hold plain text). -/
def dumps : JVal → String
  | .str s => "\"" ++ s ++ "\""
  | .obj kvs =>
    "\x7b" ++ String.intercalate ", "
      ((sortPairs (dumpPairs kvs)).map (fun p => "\"" ++ p.1 ++ "\": " ++ p.2)) ++ "\x7d"
  | .arr xs => "[" ++ String.intercalate ", " (dumpList xs) ++ "]"

/-- Dump each value of a dict, keeping its key. -/
def dumpPairs : List (String × JVal) → List (String × String)
  | [] => []
  | (k, v) :: rest => (k, dumps v) :: dumpPairs rest

/-- Dump each element of a list. -/
def dumpList : List JVal → List String
  | [] => []
  | v :: rest => dumps v :: dumpList rest

end

/-- Accumulate decimal digits; any non-digit fails. -/
def digitsToNatAux : Nat → List Char → Option Nat
  | acc, [] => some acc
  | acc, c :: cs =>
    if c.isDigit then digitsToNatAux (acc * 10 + (c.toNat - 48)) cs else none

/-- Parse a non-empty all-digit string. -/
def digitsToNat : List Char → Option Nat
  | [] => none
  | cs => digitsToNatAux 0 cs

/-- `dateutil.parser.parse(s).timestamp()`, modelled at the interface
boundary: timestamps are integer-valued strings (an optional minus sign
and decimal digits), and a string that does not parse (dateutil
`ParserError`) gives `none`. -/
def parseTimestamp (s : String) : Option Int :=
  match s.data with
  | [] => none
  | c :: cs =>
    if c == Char.ofNat 45 then (digitsToNat cs).map (fun n => -(n : Int))
    else (digitsToNat (c :: cs)).map (fun n => (n : Int))

/-- The process-wide mutable state of the module: the class-level header
dictionary `RXTv2Credentials.rxt_headers` (a class attribute mutated in
place, hence shared by every instance in the process), the session-header
cache region `RXT_SESSION_CACHE` and the service-catalog cache region
`RXT_SERVICE_CACHE`. -/
structure ProcState where
  rxt_headers : List (String × String)
  sessionCache : List (String × String)
  serviceCache : List (String × JVal)

/-- One `self.session.post(...)` call: the JSON body and the outbound
headers it was sent with. -/
structure PostRecord where
  body : JVal
  headers : List (String × String)

/-- An HTTP response from the upstream identity endpoint; `jsonBody =
none` models a body on which `r.json()` raises. -/
structure HttpResponse where
  status : Nat
  headers : List (String × String)
  jsonBody : Option JVal

/-- The reply to one POST: either a connection-level failure (raising a
`requests` connection/timeout error) or an HTTP response. -/
inductive UpReply where
  | connFail
  | resp (r : HttpResponse)

/-- The upstream endpoint as an oracle: the reply to the n-th POST
performed during a run. -/
abbrev Upstream := Nat → UpReply

/-- `keystone.auth.plugins.base.AuthHandlerResponse`. -/
structure AuthHandlerResponse where
  status : Bool
  response_body : Option JVal
  response_data : Option JVal

def missingNameMsg : String := "The authentication payload is missing the name"

def missingPasswordMsg : String := "The authentication payload is missing the password"

/-- `RXTv2Credentials._username`: prefer `user.name`, fall back to
`user.username`, otherwise `exception.Unauthorized` (both `KeyError`
handlers of the source); a non-dict `user` raises `TypeError`. -/
def usernameOf (p : JVal) : Except RxtErr JVal :=
  match getChain p ["user", "name"] with
  | .ok v => .ok v
  | .error .keyError =>
    match getChain p ["user", "username"] with
    | .ok v => .ok v
    | .error .keyError => .error (.unauthorized missingNameMsg)
    | .error e => .error e
  | .error e => .error e

/-- `RXTv2Credentials._password`: `user.password`, with `KeyError`
translated to `exception.Unauthorized`. -/
def passwordOf (p : JVal) : Except RxtErr JVal :=
  match getChain p ["user", "password"] with
  | .ok v => .ok v
  | .error .keyError => .error (.unauthorized missingPasswordMsg)
  | .error e => .error e

/-- `RXTv2Credentials._passcode`: `user.passcode`, with `KeyError`
translated to `None`. -/
def passcodeOf (p : JVal) : Except RxtErr (Option JVal) :=
  match getChain p ["user", "passcode"] with
  | .ok v => .ok (some v)
  | .error .keyError => .ok none
  | .error e => .error e

/-- The per-instance data computed by `RXTv2Credentials.__init__`: the
payload, the username, and the two fingerprints (`hashed_auth_payload`
digests the canonicalized payload, `hashed_auth_user` digests the
username alone). -/
structure Creds where
  auth_payload : JVal
  username : String
  hashed_auth_payload : String
  hashed_auth_user : String

/-- `RXTv2Credentials.__init__`. -/
def rxt_init (p : JVal) : Except RxtErr Creds :=
  match usernameOf p with
  | .error e => .error e
  | .ok uv =>
    match asString uv with
    | .error e => .error e
    | .ok u =>
      .ok ⟨p, u, sha224_hexdigest (dumps p), sha224_hexdigest u⟩

/-- `RXTv2Credentials._sessionID`: read the cached session header for
the user fingerprint (an absent entry makes `findall` raise `TypeError`,
returned as `None`), extract all `sessionId` occurrences and `pop()` the
last (an empty list raises `IndexError`, returned as `None`). -/
def sessionID (sessionCache : List (String × String)) (userHash : String) : Option String :=
  match lookupA sessionCache userHash with
  | none => none
  | some h => (findAllSess (h.length + 1) h.data).getLast?

/-- Body of the `apiKeyCredentials` property. -/
def apiKeyBody (u : String) (pw : JVal) : JVal :=
  .obj [("auth", .obj [("RAX-KSKEY:apiKeyCredentials",
    .obj [("username", .str u), ("apiKey", pw)])])]

/-- Body of the `passwordCredentials` property. -/
def passwordBody (u : String) (pw : JVal) : JVal :=
  .obj [("auth", .obj [("passwordCredentials",
    .obj [("username", .str u), ("password", pw)])])]

/-- Body of the `passcodeCredentials` property. -/
def passcodeBody (pc : JVal) : JVal :=
  .obj [("auth", .obj [("RAX-AUTH:passcodeCredentials",
    .obj [("passcode", pc)])])]

/-- The `passwordCredentials` property re-evaluated during the fallback
of `rxt_auth`: it re-reads `self._password` and may raise. -/
def passwordCredentialsBody (c : Creds) : Except RxtErr JVal :=
  match passwordOf c.auth_payload with
  | .ok pw => .ok (passwordBody c.username pw)
  | .error e => .error e

/-- The credential selected by `__enter__`: the auth type string, the
request body, and the instance's `session_id`. -/
structure SelResult where
  auth_type : String
  auth_data : JVal
  session_id : Option String

/-- `RXTv2Credentials.__enter__`: passcode credentials when a passcode
is truthy and a session id was extracted from the session cache (also
writing the `X-SessionId` outbound header into the shared class-level
header dict); otherwise api-key credentials when the password matches a
hash pattern; otherwise password credentials. -/
def rxt_enter (c : Creds) (st : ProcState) : Except RxtErr (SelResult × ProcState) :=
  let sid := sessionID st.sessionCache c.hashed_auth_user
  match passcodeOf c.auth_payload with
  | .error e => .error e
  | .ok pc =>
    if truthyJ pc && truthyS sid then
      .ok (⟨"passcodeCredentials", passcodeBody (pc.getD (.str "")), sid⟩,
        { st with rxt_headers := setA st.rxt_headers "X-SessionId" (sid.getD "") })
    else
      match passwordOf c.auth_payload with
      | .error e => .error e
      | .ok pwv =>
        match asString pwv with
        | .error e => .error e
        | .ok pw =>
          if hashTypesMatch pw then
            .ok (⟨"apiKeyCredentials", apiKeyBody c.username pwv, sid⟩, st)
          else
            .ok (⟨"passwordCredentials", passwordBody c.username pwv, sid⟩, st)

/-- The per-request `flask.request.environ` federation attributes. -/
abbrev Env := List (String × JVal)

/-- `RXTv2Credentials.set_federation_env`: write each attribute into the
request environment, skipping falsy values (`if username:` etc.). -/
def set_federation_env (env : Env) (username email domain_id tenant_name tenant_id : JVal)
    (org_person_type : String) : Env :=
  let env := if truthy username then setA env "RXT_UserName" username else env
  let env := if truthy email then setA env "RXT_Email" email else env
  let env := if truthy domain_id then setA env "RXT_DomainID" domain_id else env
  let env := if truthy tenant_name then setA env "RXT_TenantName" tenant_name else env
  let env := if truthy tenant_id then setA env "RXT_TenantID" tenant_id else env
  if !(org_person_type == "") then setA env "RXT_orgPersonType" (.str org_person_type) else env

/-- `s.split(":")`: split a character list at every colon (the result is
never empty). -/
def splitCols : List Char → List (List Char)
  | [] => [[]]
  | c :: cs =>
    let rest := splitCols cs
    if c == ':' then [] :: rest
    else
      match rest with
      | [] => [[c]]
      | h :: t => (c :: h) :: t

/-- `name.split(":")[-1]`: the substring after the last colon. -/
def lastColonSeg (s : String) : String := String.mk ((splitCols s.data).getLastD [])

/-- The comprehension `[i["name"].split(":")[-1] for i in roles]`. -/
def roleSegsOf : List JVal → Except RxtErr (List String)
  | [] => .ok []
  | r :: rs =>
    match getKey r "name" with
    | .error e => .error e
    | .ok n =>
      match asString n with
      | .error e => .error e
      | .ok s =>
        match roleSegsOf rs with
        | .error e => .error e
        | .ok rest => .ok (lastColonSeg s :: rest)

/-- Deduplication helper carrying the set of segments already seen. -/
def dedupAux : List String → List String → List String
  | _, [] => []
  | seen, x :: xs =>
    if seen.contains x then dedupAux seen xs else x :: dedupAux (x :: seen) xs

/-- Python `set(...)` applied to the role segments, then iterated by
`";".join`: deduplication with set semantics.  CPython's set iteration
order is unspecified; this model fixes first-occurrence order, and the
theorems about the joined string are stated up to that order. -/
def dedupFirst (l : List String) : List String := dedupAux [] l

/-- The extraction performed inside the `try` of `parse_service_catalog`,
in source evaluation order: `access`, `access["user"]`, `access["token"]`,
the role-segment set, then the six keyword arguments.  Iterating a
non-list `roles` raises `TypeError`. -/
def pscExtract (sc : JVal) : Except RxtErr (JVal × JVal × JVal × JVal × JVal × String) :=
  match getKey sc "access" with
  | .error e => .error e
  | .ok access =>
    match getKey access "user" with
    | .error e => .error e
    | .ok access_user =>
      match getKey access "token" with
      | .error e => .error e
      | .ok access_token =>
        match getChain sc ["access", "user", "roles"] with
        | .error e => .error e
        | .ok (.arr rs) =>
          match roleSegsOf rs with
          | .error e => .error e
          | .ok segs =>
            let opt := String.intercalate ";" (dedupFirst segs)
            match getKey access_user "name" with
            | .error e => .error e
            | .ok u =>
              match getKey access_user "email" with
              | .error e => .error e
              | .ok em =>
                match getKey access_user "RAX-AUTH:domainId" with
                | .error e => .error e
                | .ok d =>
                  match getChain access_token ["tenant", "name"] with
                  | .error e => .error e
                  | .ok tn =>
                    match getChain access_token ["tenant", "id"] with
                    | .error e => .error e
                    | .ok ti => .ok (u, em, d, tn, ti, opt)
        | .ok _ => .error .typeError

def catalogMsg : String := "Could not parse the Rackspace Service Catalog for access"

/-- `RXTv2Credentials.parse_service_catalog`: run the extraction; a
`KeyError` anywhere in it is translated to `exception.Unauthorized`,
other exceptions propagate; on success the federation environment is
written (only then — no partial write can happen, since every extraction
precedes the single `set_federation_env` call). -/
def parse_service_catalog (env : Env) (sc : JVal) : Except RxtErr Env :=
  match pscExtract sc with
  | .ok (u, em, d, tn, ti, opt) => .ok (set_federation_env env u em d tn ti opt)
  | .error .keyError => .error (.unauthorized catalogMsg)
  | .error e => .error e

/-- `RXTv2Credentials.return_auth_handler`, modelled at the interface
boundary: the keystone federation mapping (`mapped.handle_scoped_token`
or `handle_unscoped_token`) consumes the per-request federation
environment and produces the response data. -/
def return_auth_handler (env : Env) : AuthHandlerResponse :=
  { status := true, response_body := none, response_data := some (.obj env) }

/-- Result of one `_rxt_auth` call: its return value or raised
exception, the process state, the POSTs performed and the request
environment. -/
structure AuthStep (α : Type) where
  res : Except RxtErr α
  st : ProcState
  posts : List PostRecord
  env : Env

/-- The second half of `RXTv2Credentials._rxt_auth` (everything after the
service-cache block): the cached-session short-circuit, the POST, the
401-challenge capture, `raise_for_status`, and the parse-and-cache
success path. -/
def rxt_auth_postPhase (up : Upstream) (c : Creds) (auth_type : String) (auth_data : JVal)
    (session_id : Option String) (st : ProcState) (posts : List PostRecord) (env : Env) :
    AuthStep Bool :=
  if truthyS session_id && auth_type == "passwordCredentials" then
    ⟨.ok true, st, posts, env⟩
  else
    match up posts.length with
    | .connFail => ⟨.error .connectionError, st, posts ++ [⟨auth_data, st.rxt_headers⟩], env⟩
    | .resp r =>
      let posts2 := posts ++ [⟨auth_data, st.rxt_headers⟩]
      if r.status == 401 && (lookupA r.headers "WWW-Authenticate").isSome then
        let w := (lookupA r.headers "WWW-Authenticate").getD ""
        ⟨.ok true,
          { st with sessionCache := setA st.sessionCache c.hashed_auth_user w },
          posts2, env⟩
      else if 400 ≤ r.status && r.status < 600 then
        ⟨.error .httpError, st, posts2, env⟩
      else
        match r.jsonBody with
        | none => ⟨.error .jsonError, st, posts2, env⟩
        | some sc =>
          match parse_service_catalog env sc with
          | .error e => ⟨.error e, st, posts2, env⟩
          | .ok env2 =>
            ⟨.ok false,
              { st with serviceCache := setA st.serviceCache c.hashed_auth_payload sc },
              posts2, env2⟩

/-- `RXTv2Credentials._rxt_auth`: first the service-cache block — a
truthy cached catalog is validated (`KeyError` on the expiry chain →
evict and continue; unparsable expiry → the dateutil error propagates;
expiry strictly in the future → serve from cache; otherwise evict and
continue) — then `rxt_auth_postPhase`. -/
def rxt_auth_step (up : Upstream) (now : Int) (c : Creds) (auth_type : String) (auth_data : JVal)
    (session_id : Option String) (st : ProcState) (posts : List PostRecord) (env : Env) :
    AuthStep Bool :=
  match lookupA st.serviceCache c.hashed_auth_payload with
  | some sc =>
    if truthy sc then
      match getChain sc ["access", "token", "expires"] with
      | .error .keyError =>
        rxt_auth_postPhase up c auth_type auth_data session_id
          { st with serviceCache := delA st.serviceCache c.hashed_auth_payload } posts env
      | .error e => ⟨.error e, st, posts, env⟩
      | .ok ev =>
        match asString ev with
        | .error e => ⟨.error e, st, posts, env⟩
        | .ok es =>
          match parseTimestamp es with
          | none => ⟨.error .dateParseError, st, posts, env⟩
          | some t =>
            if now < t then
              match parse_service_catalog env sc with
              | .ok env2 => ⟨.ok false, st, posts, env2⟩
              | .error e => ⟨.error e, st, posts, env⟩
            else
              rxt_auth_postPhase up c auth_type auth_data session_id
                { st with serviceCache := delA st.serviceCache c.hashed_auth_payload } posts env
    else rxt_auth_postPhase up c auth_type auth_data session_id st posts env
  | none => rxt_auth_postPhase up c auth_type auth_data session_id st posts env

/-- Result of `rxt_auth`, additionally counting the api-key-to-password
fallback re-invocations. -/
structure AuthDone where
  res : Except RxtErr AuthHandlerResponse
  st : ProcState
  posts : List PostRecord
  env : Env
  retries : Nat

def authFailMsg (auth_type : String) : String :=
  "Failed to authenticate using the Rackspace Identity API with " ++ auth_type

/-- `RXTv2Credentials.rxt_auth`, indexed by the Python interpreter's
remaining recursion depth (CPython raises `RecursionError` when the
recursion limit is exceeded; the theorems below show the limit is never
reached): run `_rxt_auth`; on `requests.HTTPError` with the api-key auth
type, switch the payload to `passwordCredentials` and recurse; on
`requests.HTTPError` with any other auth type raise
`exception.Unauthorized`; other exceptions propagate; on a boolean
result return the MFA-pending response (`status=False`) or the mapped
auth handler response.  `retries` counts the fallback re-invocations. -/
def rxt_auth_rec : Nat → Upstream → Int → Creds → String → JVal → Option String →
    ProcState → List PostRecord → Env → AuthDone
  | 0, _, _, _, _, _, _, st, posts, env => ⟨.error .recursionError, st, posts, env, 0⟩
  | fuel + 1, up, now, c, auth_type, auth_data, session_id, st, posts, env =>
    let step := rxt_auth_step up now c auth_type auth_data session_id st posts env
    match step.res with
    | .error .httpError =>
      if auth_type == "apiKeyCredentials" then
        match passwordCredentialsBody c with
        | .ok body =>
          let d := rxt_auth_rec fuel up now c "passwordCredentials" body session_id
            step.st step.posts step.env
          { d with retries := d.retries + 1 }
        | .error e => ⟨.error e, step.st, step.posts, step.env, 0⟩
      else
        ⟨.error (.unauthorized (authFailMsg auth_type)), step.st, step.posts, step.env, 0⟩
    | .error e => ⟨.error e, step.st, step.posts, step.env, 0⟩
    | .ok mfa =>
      if mfa then ⟨.ok ⟨false, none, none⟩, step.st, step.posts, step.env, 0⟩
      else ⟨.ok (return_auth_handler step.env), step.st, step.posts, step.env, 0⟩

/-- CPython's default recursion limit. -/
def recursionLimit : Nat := 1000

/-- `RXTv2Credentials.rxt_auth` as called by `authenticate`. -/
def rxt_auth_main (up : Upstream) (now : Int) (c : Creds) (auth_type : String) (auth_data : JVal)
    (session_id : Option String) (st : ProcState) (posts : List PostRecord) (env : Env) :
    AuthDone :=
  rxt_auth_rec recursionLimit up now c auth_type auth_data session_id st posts env

/-- Outcome of one `authenticate` call of the wrapping plugin:
delegated to the stock keystone plugin, handled with an auth handler
response, or terminated by a raised exception. -/
inductive AuthResult where
  | delegated
  | handled (r : AuthHandlerResponse)
  | raised (e : RxtErr)

/-- A full call record: outcome, process state after the call, POSTs
performed, federation environment written, fallback count. -/
structure CallResult where
  result : AuthResult
  st : ProcState
  posts : List PostRecord
  env : Env
  retries : Nat

def rxtDomain : String := "rackspace_cloud_domain"

/-- Package the result of `rxt_auth`: a return value becomes the handled
response, a raised exception propagates out of the plugin. -/
def doneToCall (d : AuthDone) : CallResult :=
  match d.res with
  | .ok r => ⟨.handled r, d.st, d.posts, d.env, d.retries⟩
  | .error e => ⟨.raised e, d.st, d.posts, d.env, d.retries⟩

/-- `RXTPassword.authenticate` (and identically `RXTTOTP.authenticate`):
if the payload's `user.domain.name` is not `rackspace_cloud_domain`
(`KeyError`/`AssertionError`) delegate to the stock plugin, otherwise run
`with RXTv2Credentials(auth_payload) as rxt: return rxt.rxt_auth()`. -/
def authenticate (up : Upstream) (now : Int) (st : ProcState) (p : JVal) : CallResult :=
  match getChain p ["user", "domain", "name"] with
  | .error .keyError => ⟨.delegated, st, [], [], 0⟩
  | .error e => ⟨.raised e, st, [], [], 0⟩
  | .ok dv =>
    if jEqStr dv rxtDomain then
      match rxt_init p with
      | .error e => ⟨.raised e, st, [], [], 0⟩
      | .ok c =>
        match rxt_enter c st with
        | .error e => ⟨.raised e, st, [], [], 0⟩
        | .ok (sel, st1) =>
          doneToCall (rxt_auth_main up now c sel.auth_type sel.auth_data sel.session_id st1 [] [])
    else ⟨.delegated, st, [], [], 0⟩

/-- An upstream reply on which `_rxt_auth` raises `requests.HTTPError`:
an HTTP response with an error status (4xx/5xx, per `raise_for_status`)
that is not the 401-plus-challenge-header MFA case. -/
def isHttpFailure : UpReply → Bool
  | .connFail => false
  | .resp r =>
    (400 ≤ r.status && r.status < 600) &&
      !(r.status == 401 && (lookupA r.headers "WWW-Authenticate").isSome)

/-- An upstream reply whose handling by `_rxt_auth` stays within the
structured error model: an HTTP response that is an MFA challenge, an
error status, or a success whose JSON body parses and whose catalog
extraction does not hit a type mismatch. -/
def goodReply : UpReply → Bool
  | .connFail => false
  | .resp r =>
    (r.status == 401 && (lookupA r.headers "WWW-Authenticate").isSome) ||
    (400 ≤ r.status && r.status < 600) ||
    (match r.jsonBody with
     | none => false
     | some sc =>
       match pscExtract sc with
       | .error .typeError => false
       | _ => true)

/-- A structured outcome at the plugin boundary: delegation, an auth
handler response, or a keystone `Unauthorized` exception (rendered by the
framework as a 401).  Anything else is a raw exception leaking out of the
plugin. -/
def structuredOutcome : AuthResult → Bool
  | .delegated => true
  | .handled _ => true
  | .raised (.unauthorized _) => true
  | .raised _ => false

/-- A session challenge header as the upstream sends it on MFA-required
responses. -/
def chalW : String := "OS-MF sessionId=" ++ String.mk [sq] ++ "sess42" ++ String.mk [sq]

/-- A Rackspace-domain payload whose password is 32 hex characters. -/
def pHex : JVal := .obj [("user", .obj [
  ("name", .str "alice"),
  ("password", .str "deadbeefdeadbeefdeadbeefdeadbeef"),
  ("domain", .obj [("name", .str "rackspace_cloud_domain")])])]

def credsHex : Creds := ⟨pHex, "alice", sha224_hexdigest (dumps pHex), sha224_hexdigest "alice"⟩

/-- A Rackspace-domain payload with an ordinary password. -/
def pPlain : JVal := .obj [("user", .obj [
  ("name", .str "bob"),
  ("password", .str "hunter2"),
  ("domain", .obj [("name", .str "rackspace_cloud_domain")])])]

def credsPlain : Creds := ⟨pPlain, "bob", sha224_hexdigest (dumps pPlain), sha224_hexdigest "bob"⟩

/-- A Rackspace-domain payload carrying both a password and a passcode. -/
def pPass : JVal := .obj [("user", .obj [
  ("name", .str "alice"),
  ("password", .str "x"),
  ("passcode", .str "123456"),
  ("domain", .obj [("name", .str "rackspace_cloud_domain")])])]

def credsPass : Creds := ⟨pPass, "alice", sha224_hexdigest (dumps pPass), sha224_hexdigest "alice"⟩

/-- A Rackspace-domain payload carrying a passcode but no password. -/
def pNoPw : JVal := .obj [("user", .obj [
  ("name", .str "carol"),
  ("passcode", .str "123456"),
  ("domain", .obj [("name", .str "rackspace_cloud_domain")])])]

def credsNoPw : Creds := ⟨pNoPw, "carol", sha224_hexdigest (dumps pNoPw), sha224_hexdigest "carol"⟩

/-- A well-formed service catalog (expiry timestamp 100). -/
def catOK : JVal := .obj [("access", .obj [
  ("user", .obj [
    ("name", .str "alice"), ("email", .str "a@b.c"),
    ("RAX-AUTH:domainId", .str "d1"),
    ("roles", .arr [.obj [("name", .str "foo:bar")], .obj [("name", .str "foo:admin")]])]),
  ("token", .obj [
    ("expires", .str "100"),
    ("tenant", .obj [("name", .str "t1"), ("id", .str "tid1")])])])]

/-- The federation environment produced from `catOK`. -/
def envOK : Env :=
  [("RXT_UserName", .str "alice"), ("RXT_Email", .str "a@b.c"), ("RXT_DomainID", .str "d1"),
   ("RXT_TenantName", .str "t1"), ("RXT_TenantID", .str "tid1"),
   ("RXT_orgPersonType", .str "bar;admin")]

/-- A service catalog identical to `catOK` except for an empty email. -/
def catNoEmail : JVal := .obj [("access", .obj [
  ("user", .obj [
    ("name", .str "alice"), ("email", .str ""),
    ("RAX-AUTH:domainId", .str "d1"),
    ("roles", .arr [.obj [("name", .str "foo:bar")], .obj [("name", .str "foo:admin")]])]),
  ("token", .obj [
    ("expires", .str "100"),
    ("tenant", .obj [("name", .str "t1"), ("id", .str "tid1")])])])]

/-- The federation environment produced from `catNoEmail`: no email. -/
def envNoEmail : Env :=
  [("RXT_UserName", .str "alice"), ("RXT_DomainID", .str "d1"),
   ("RXT_TenantName", .str "t1"), ("RXT_TenantID", .str "tid1"),
   ("RXT_orgPersonType", .str "bar;admin")]

/-- A cached catalog whose embedded expiry is present but unparsable. -/
def catBadExp : JVal := .obj [("access", .obj [("token", .obj [("expires", .str "garbage")])])]

def stEmpty : ProcState := ⟨[], [], []⟩

def stSessAlice : ProcState := ⟨[], [(sha224_hexdigest "alice", chalW)], []⟩

def stSessBob : ProcState := ⟨[], [(sha224_hexdigest "bob", chalW)], []⟩

/-- A state whose service cache holds the unparsable-expiry catalog under
the fingerprint of `pPlain`. -/
def stCachedBad : ProcState := ⟨[], [], [(sha224_hexdigest (dumps pPlain), catBadExp)]⟩

/-- A state whose service cache holds the well-formed catalog under the
fingerprint of `pPlain`. -/
def stCachedOK : ProcState := ⟨[], [], [(sha224_hexdigest (dumps pPlain), catOK)]⟩

def upOK : Upstream := fun _ => .resp ⟨200, [], some catOK⟩

def upFail403 : Upstream := fun _ => .resp ⟨403, [], none⟩

def up401W : Upstream := fun _ => .resp ⟨401, [("WWW-Authenticate", chalW)], none⟩

def upConn : Upstream := fun _ => .connFail

/-- Looking up the key just written finds the written value. -/
theorem lookupA_setA_self {β : Type} (l : List (String × β)) (k : String) (v : β) :
    lookupA (setA l k v) k = some v := by
  induction l with
  | nil => simp [setA, lookupA]
  | cons p rest ih =>
    obtain ⟨k1, v1⟩ := p
    by_cases h : (k1 == k) = true
    · simp [setA, lookupA, h]
    · simp only [Bool.not_eq_true] at h
      simp [setA, lookupA, h, ih]

/-- Writing one key does not change the lookup of another. -/
theorem lookupA_setA_ne {β : Type} (l : List (String × β)) (k k2 : String) (v : β)
    (hne : (k == k2) = false) : lookupA (setA l k v) k2 = lookupA l k2 := by
  induction l with
  | nil => simp [setA, lookupA, hne]
  | cons p rest ih =>
    obtain ⟨k1, v1⟩ := p
    by_cases h : (k1 == k) = true
    · have hk : k1 = k := by simpa using h
      subst hk
      simp [setA, lookupA, h, hne]
    · simp only [Bool.not_eq_true] at h
      simp [setA, lookupA, h, ih]

/-- A deleted key is no longer found. -/
theorem lookupA_delA_self {β : Type} (l : List (String × β)) (k : String) :
    lookupA (delA l k) k = none := by
  induction l with
  | nil => simp [delA, lookupA]
  | cons p rest ih =>
    obtain ⟨k1, v1⟩ := p
    by_cases h : (k1 == k) = true
    · simp [delA, lookupA, h, ih]
    · simp only [Bool.not_eq_true] at h
      simp [delA, lookupA, h, ih]

/-- The capture group of the lazy session-id tail is never empty (the
regex requires at least the final `[^\\]` character). -/
theorem lazyCapture_ne_nil :
    ∀ (rest acc cap rem : List Char), lazyCapture acc rest = some (cap, rem) → cap ≠ [] := by
  intro rest
  induction rest with
  | nil => intro acc cap rem h; simp [lazyCapture] at h
  | cons c rest ih =>
    intro acc cap rem h
    cases rest with
    | nil => simp [lazyCapture] at h
    | cons q rest2 =>
      simp only [lazyCapture] at h
      by_cases h1 : (!(c == Char.ofNat 92) && q == sq) = true
      · rw [if_pos h1] at h
        simp only [Option.some.injEq, Prod.mk.injEq] at h
        obtain ⟨h2, _⟩ := h
        subst h2
        simp
      · rw [if_neg h1] at h
        by_cases h2 : (!(c == Char.ofNat 10)) = true
        · rw [if_pos h2] at h
          exact ih (acc ++ [c]) cap rem h
        · rw [if_neg h2] at h
          simp at h

/-- Every string produced by the session-id scan is non-empty. -/
theorem findAllSess_mem_ne_empty :
    ∀ (fuel : Nat) (cs : List Char) (s : String), s ∈ findAllSess fuel cs → s ≠ "" := by
  intro fuel
  induction fuel with
  | zero => intro cs s h; simp [findAllSess] at h
  | succ fuel ih =>
    intro cs s h
    cases cs with
    | nil => simp [findAllSess] at h
    | cons c rest =>
      simp only [findAllSess] at h
      cases hstrip : stripLit sessLit (c :: rest) with
      | none => simp only [hstrip] at h; exact ih rest s h
      | some after =>
        simp only [hstrip] at h
        cases hcap : lazyCapture [] after with
        | none => simp only [hcap] at h; exact ih rest s h
        | some pr =>
          obtain ⟨cap, rem⟩ := pr
          simp only [hcap] at h
          rcases List.mem_cons.mp h with h1 | h1
          · subst h1
            intro hs
            exact lazyCapture_ne_nil after [] cap rem hcap (congrArg String.data hs)
          · exact ih rem s h1

/-- `_sessionID` never yields the empty string: its value is the last
match of a scan whose captures are non-empty. -/
theorem sessionID_ne_empty (cache : List (String × String)) (u s : String)
    (h : sessionID cache u = some s) : s ≠ "" := by
  rw [sessionID] at h
  cases hl : lookupA cache u with
  | none => rw [hl] at h; simp at h
  | some hdr =>
    rw [hl] at h
    have hmem : s ∈ findAllSess (hdr.length + 1) hdr.data := by
      obtain ⟨hne, heq⟩ :=
        List.mem_getLast?_eq_getLast (l := findAllSess (hdr.length + 1) hdr.data) (x := s)
          (Option.mem_def.mpr h)
      rw [heq]
      exact List.getLast_mem hne
    exact findAllSess_mem_ne_empty _ _ _ hmem

/-- A non-empty optional string is truthy. -/
theorem truthyS_of_ne (s : String) (h : s ≠ "") : truthyS (some s) = true := by
  simp [truthyS, h]

/-- C1: for every auth payload, `__enter__` selects credentials in
priority order — if a truthy passcode is present and a session id is
extracted from the cached session header for the user, the passcode kind
is selected and the extracted session id is attached as the
`X-SessionId` outbound header; otherwise, if the password matches one of
the 32/40/64-character hexadecimal patterns, the api-key kind is
selected; otherwise the password kind is selected. -/
theorem C1_credential_selection_priority :
    (∀ (c : Creds) (st : ProcState) (pc : Option JVal) (s : String),
      passcodeOf c.auth_payload = .ok pc → truthyJ pc = true →
      sessionID st.sessionCache c.hashed_auth_user = some s →
      ∃ sel st2, rxt_enter c st = .ok (sel, st2) ∧
        sel.auth_type = "passcodeCredentials" ∧
        lookupA st2.rxt_headers "X-SessionId" = some s) ∧
    (∀ (c : Creds) (st : ProcState) (pc : Option JVal) (pw : String),
      passcodeOf c.auth_payload = .ok pc →
      (truthyJ pc && truthyS (sessionID st.sessionCache c.hashed_auth_user)) = false →
      passwordOf c.auth_payload = .ok (.str pw) →
      hashTypesMatch pw = true →
      ∃ sel, rxt_enter c st = .ok (sel, st) ∧ sel.auth_type = "apiKeyCredentials") ∧
    (∀ (c : Creds) (st : ProcState) (pc : Option JVal) (pw : String),
      passcodeOf c.auth_payload = .ok pc →
      (truthyJ pc && truthyS (sessionID st.sessionCache c.hashed_auth_user)) = false →
      passwordOf c.auth_payload = .ok (.str pw) →
      hashTypesMatch pw = false →
      ∃ sel, rxt_enter c st = .ok (sel, st) ∧ sel.auth_type = "passwordCredentials") := by
  refine ⟨?_, ?_, ?_⟩
  · intro c st pc s hpc htr hsid
    have hts : truthyS (some s) = true := truthyS_of_ne s (sessionID_ne_empty _ _ _ hsid)
    refine ⟨⟨"passcodeCredentials", passcodeBody (pc.getD (.str "")), some s⟩,
      { st with rxt_headers := setA st.rxt_headers "X-SessionId" s }, ?_, rfl, ?_⟩
    · simp [rxt_enter, hpc, hsid, htr, hts]
    · exact lookupA_setA_self st.rxt_headers "X-SessionId" s
  · intro c st pc pw hpc hcond hpw hmatch
    refine ⟨⟨"apiKeyCredentials", apiKeyBody c.username (.str pw),
      sessionID st.sessionCache c.hashed_auth_user⟩, ?_, rfl⟩
    simp [rxt_enter, hpc, hcond, hpw, asString, hmatch]
  · intro c st pc pw hpc hcond hpw hmatch
    refine ⟨⟨"passwordCredentials", passwordBody c.username (.str pw),
      sessionID st.sessionCache c.hashed_auth_user⟩, ?_, rfl⟩
    simp [rxt_enter, hpc, hcond, hpw, asString, hmatch]

/-- Witness for C1: a payload with passcode `123456` and a cached
session header for the user selects the passcode kind and attaches the
extracted session id `sess42`. -/
theorem C1_credential_selection_priority_witness :
    ∃ sel st2, rxt_enter credsPass stSessAlice = .ok (sel, st2) ∧
      sel.auth_type = "passcodeCredentials" ∧
      lookupA st2.rxt_headers "X-SessionId" = some "sess42" :=
  C1_credential_selection_priority.1 credsPass stSessAlice (some (.str "123456")) "sess42"
    rfl rfl rfl

/-- The cached-session short-circuit of `_rxt_auth`: a truthy session id
together with the password auth type returns `True` without posting. -/
theorem postPhase_shortcut (up : Upstream) (c : Creds) (at_ : String) (body : JVal)
    (sid : Option String) (st : ProcState) (posts : List PostRecord) (env : Env)
    (h : (truthyS sid && at_ == "passwordCredentials") = true) :
    rxt_auth_postPhase up c at_ body sid st posts env = ⟨.ok true, st, posts, env⟩ := by
  simp [rxt_auth_postPhase, h]

/-- The MFA-challenge branch of `_rxt_auth`: a 401 response carrying a
`WWW-Authenticate` header caches it under the user fingerprint and
returns `True`. -/
theorem postPhase_mfa (up : Upstream) (c : Creds) (at_ : String) (body : JVal)
    (sid : Option String) (st : ProcState) (posts : List PostRecord) (env : Env)
    (r : HttpResponse) (w : String)
    (hcond : (truthyS sid && at_ == "passwordCredentials") = false)
    (hup : up posts.length = .resp r)
    (h401 : r.status = 401)
    (hw : lookupA r.headers "WWW-Authenticate" = some w) :
    rxt_auth_postPhase up c at_ body sid st posts env =
      ⟨.ok true, { st with sessionCache := setA st.sessionCache c.hashed_auth_user w },
        posts ++ [⟨body, st.rxt_headers⟩], env⟩ := by
  simp [rxt_auth_postPhase, hcond, hup, h401, hw]

/-- The `raise_for_status` branch of `_rxt_auth`: an error status that is
not the MFA case raises `requests.HTTPError`, leaving the caches
untouched. -/
theorem postPhase_httpError (up : Upstream) (c : Creds) (at_ : String) (body : JVal)
    (sid : Option String) (st : ProcState) (posts : List PostRecord) (env : Env)
    (r : HttpResponse)
    (hcond : (truthyS sid && at_ == "passwordCredentials") = false)
    (hup : up posts.length = .resp r)
    (h401 : (r.status == 401 && (lookupA r.headers "WWW-Authenticate").isSome) = false)
    (herr : ((400 ≤ r.status && r.status < 600 : Bool)) = true) :
    rxt_auth_postPhase up c at_ body sid st posts env =
      ⟨.error .httpError, st, posts ++ [⟨body, st.rxt_headers⟩], env⟩ := by
  simp only [rxt_auth_postPhase, hcond, Bool.false_eq_true, if_false, hup]
  rw [if_neg (by simp [h401]), if_pos (by simp [herr])]

/-- The success branch of `_rxt_auth`: a non-error response with a JSON
body that translates cleanly writes the federation environment, caches
the catalog under the payload fingerprint and returns `False`. -/
theorem postPhase_success (up : Upstream) (c : Creds) (at_ : String) (body : JVal)
    (sid : Option String) (st : ProcState) (posts : List PostRecord) (env : Env)
    (r : HttpResponse) (sc : JVal) (env2 : Env)
    (hcond : (truthyS sid && at_ == "passwordCredentials") = false)
    (hup : up posts.length = .resp r)
    (h401 : (r.status == 401 && (lookupA r.headers "WWW-Authenticate").isSome) = false)
    (herr : ((400 ≤ r.status && r.status < 600 : Bool)) = false)
    (hbody : r.jsonBody = some sc)
    (hparse : parse_service_catalog env sc = .ok env2) :
    rxt_auth_postPhase up c at_ body sid st posts env =
      ⟨.ok false, { st with serviceCache := setA st.serviceCache c.hashed_auth_payload sc },
        posts ++ [⟨body, st.rxt_headers⟩], env2⟩ := by
  simp only [rxt_auth_postPhase, hcond, Bool.false_eq_true, if_false, hup]
  rw [if_neg (by simp [h401]), if_neg (by simp [herr])]
  simp [hbody, hparse]

/-- A service-cache miss falls through to the POST phase unchanged. -/
theorem step_miss (up : Upstream) (now : Int) (c : Creds) (at_ : String) (body : JVal)
    (sid : Option String) (st : ProcState) (posts : List PostRecord) (env : Env)
    (h : lookupA st.serviceCache c.hashed_auth_payload = none) :
    rxt_auth_step up now c at_ body sid st posts env =
      rxt_auth_postPhase up c at_ body sid st posts env := by
  simp [rxt_auth_step, h]

/-- A truthy cached catalog with a parseable, strictly-future expiry is
served from the cache: no POST, environment written, `False` returned. -/
theorem step_hit_valid (up : Upstream) (now : Int) (c : Creds) (at_ : String) (body : JVal)
    (sid : Option String) (st : ProcState) (posts : List PostRecord) (env : Env)
    (sc : JVal) (es : String) (t : Int) (env2 : Env)
    (hl : lookupA st.serviceCache c.hashed_auth_payload = some sc)
    (ht : truthy sc = true)
    (he : getChain sc ["access", "token", "expires"] = .ok (.str es))
    (hp : parseTimestamp es = some t)
    (hn : now < t)
    (hps : parse_service_catalog env sc = .ok env2) :
    rxt_auth_step up now c at_ body sid st posts env = ⟨.ok false, st, posts, env2⟩ := by
  simp [rxt_auth_step, hl, ht, he, asString, hp, hn, hps]

/-- A truthy cached catalog whose expiry is not strictly in the future is
evicted, and the flow proceeds exactly as a cache miss on the evicted
state. -/
theorem step_hit_stale (up : Upstream) (now : Int) (c : Creds) (at_ : String) (body : JVal)
    (sid : Option String) (st : ProcState) (posts : List PostRecord) (env : Env)
    (sc : JVal) (es : String) (t : Int)
    (hl : lookupA st.serviceCache c.hashed_auth_payload = some sc)
    (ht : truthy sc = true)
    (he : getChain sc ["access", "token", "expires"] = .ok (.str es))
    (hp : parseTimestamp es = some t)
    (hn : t ≤ now) :
    rxt_auth_step up now c at_ body sid st posts env =
      rxt_auth_postPhase up c at_ body sid
        { st with serviceCache := delA st.serviceCache c.hashed_auth_payload } posts env := by
  have hn2 : ¬(now < t) := not_lt.mpr hn
  simp [rxt_auth_step, hl, ht, he, asString, hp, hn2]

/-- A truthy cached catalog missing the expiry chain (`KeyError`) is
evicted, and the flow proceeds exactly as a cache miss on the evicted
state. -/
theorem step_hit_nokey (up : Upstream) (now : Int) (c : Creds) (at_ : String) (body : JVal)
    (sid : Option String) (st : ProcState) (posts : List PostRecord) (env : Env) (sc : JVal)
    (hl : lookupA st.serviceCache c.hashed_auth_payload = some sc)
    (ht : truthy sc = true)
    (he : getChain sc ["access", "token", "expires"] = .error .keyError) :
    rxt_auth_step up now c at_ body sid st posts env =
      rxt_auth_postPhase up c at_ body sid
        { st with serviceCache := delA st.serviceCache c.hashed_auth_payload } posts env := by
  simp [rxt_auth_step, hl, ht, he]

/-- A truthy cached catalog whose expiry string does not parse makes the
dateutil error propagate; the entry is not evicted. -/
theorem step_hit_noparse (up : Upstream) (now : Int) (c : Creds) (at_ : String) (body : JVal)
    (sid : Option String) (st : ProcState) (posts : List PostRecord) (env : Env)
    (sc : JVal) (es : String)
    (hl : lookupA st.serviceCache c.hashed_auth_payload = some sc)
    (ht : truthy sc = true)
    (he : getChain sc ["access", "token", "expires"] = .ok (.str es))
    (hp : parseTimestamp es = none) :
    rxt_auth_step up now c at_ body sid st posts env =
      ⟨.error .dateParseError, st, posts, env⟩ := by
  simp [rxt_auth_step, hl, ht, he, asString, hp]

/-- `rxt_auth` on a `True` result: the MFA-pending response. -/
theorem rec_ok_true (fuel : Nat) (up : Upstream) (now : Int) (c : Creds) (at_ : String)
    (body : JVal) (sid : Option String) (st : ProcState) (posts : List PostRecord) (env : Env)
    (st2 : ProcState) (posts2 : List PostRecord) (env2 : Env)
    (h : rxt_auth_step up now c at_ body sid st posts env = ⟨.ok true, st2, posts2, env2⟩) :
    rxt_auth_rec (fuel + 1) up now c at_ body sid st posts env =
      ⟨.ok ⟨false, none, none⟩, st2, posts2, env2, 0⟩ := by
  simp [rxt_auth_rec, h]

/-- `rxt_auth` on a `False` result: the mapped auth handler response. -/
theorem rec_ok_false (fuel : Nat) (up : Upstream) (now : Int) (c : Creds) (at_ : String)
    (body : JVal) (sid : Option String) (st : ProcState) (posts : List PostRecord) (env : Env)
    (st2 : ProcState) (posts2 : List PostRecord) (env2 : Env)
    (h : rxt_auth_step up now c at_ body sid st posts env = ⟨.ok false, st2, posts2, env2⟩) :
    rxt_auth_rec (fuel + 1) up now c at_ body sid st posts env =
      ⟨.ok (return_auth_handler env2), st2, posts2, env2, 0⟩ := by
  simp [rxt_auth_rec, h]

/-- `rxt_auth` on a non-HTTP exception: it propagates unchanged. -/
theorem rec_err_other (fuel : Nat) (up : Upstream) (now : Int) (c : Creds) (at_ : String)
    (body : JVal) (sid : Option String) (st : ProcState) (posts : List PostRecord) (env : Env)
    (st2 : ProcState) (posts2 : List PostRecord) (env2 : Env) (e : RxtErr)
    (h : rxt_auth_step up now c at_ body sid st posts env = ⟨.error e, st2, posts2, env2⟩)
    (hne : e ≠ .httpError) :
    rxt_auth_rec (fuel + 1) up now c at_ body sid st posts env =
      ⟨.error e, st2, posts2, env2, 0⟩ := by
  cases e
  case httpError => exact absurd rfl hne
  all_goals simp [rxt_auth_rec, h]

/-- `rxt_auth` on `requests.HTTPError` with a non-api-key auth type:
fatal `exception.Unauthorized`, no retry. -/
theorem rec_http_other (fuel : Nat) (up : Upstream) (now : Int) (c : Creds) (at_ : String)
    (body : JVal) (sid : Option String) (st : ProcState) (posts : List PostRecord) (env : Env)
    (st2 : ProcState) (posts2 : List PostRecord) (env2 : Env)
    (h : rxt_auth_step up now c at_ body sid st posts env = ⟨.error .httpError, st2, posts2, env2⟩)
    (hat : (at_ == "apiKeyCredentials") = false) :
    rxt_auth_rec (fuel + 1) up now c at_ body sid st posts env =
      ⟨.error (.unauthorized (authFailMsg at_)), st2, posts2, env2, 0⟩ := by
  simp [rxt_auth_rec, h, hat]

/-- `rxt_auth` on `requests.HTTPError` with the api-key auth type:
the payload is switched to password credentials and the call recurses
once, counting one retry. -/
theorem rec_http_api (fuel : Nat) (up : Upstream) (now : Int) (c : Creds)
    (body : JVal) (sid : Option String) (st : ProcState) (posts : List PostRecord) (env : Env)
    (st2 : ProcState) (posts2 : List PostRecord) (env2 : Env) (pbody : JVal)
    (h : rxt_auth_step up now c "apiKeyCredentials" body sid st posts env =
      ⟨.error .httpError, st2, posts2, env2⟩)
    (hpb : passwordCredentialsBody c = .ok pbody) :
    rxt_auth_rec (fuel + 1) up now c "apiKeyCredentials" body sid st posts env =
      { rxt_auth_rec fuel up now c "passwordCredentials" pbody sid st2 posts2 env2 with
        retries :=
          (rxt_auth_rec fuel up now c "passwordCredentials" pbody sid st2 posts2 env2).retries
            + 1 } := by
  simp [rxt_auth_rec, h, hpb]

/-- `rxt_auth` as invoked by `authenticate`, with the recursion budget
exposed in successor form. -/
theorem main_eq_rec (up : Upstream) (now : Int) (c : Creds) (at_ : String) (body : JVal)
    (sid : Option String) (st : ProcState) (posts : List PostRecord) (env : Env) :
    rxt_auth_main up now c at_ body sid st posts env =
      rxt_auth_rec (999 + 1) up now c at_ body sid st posts env := rfl

/-- C2: when every upstream exchange fails with an HTTP error, an
api-key attempt performs exactly one automatic retry with the password
kind — two POSTs, the second carrying the password-credentials body —
and ends with a fatal `Unauthorized`; a password attempt performs no
retry at all and fails fatally after its single POST.  The kind only
ever transitions from api-key to password. -/
theorem C2_apiKey_fallback_once :
    (∀ (up : Upstream) (now : Int) (c : Creds) (body pbody : JVal) (sid : Option String)
      (st : ProcState) (posts : List PostRecord) (env : Env),
      (∀ n, isHttpFailure (up n) = true) →
      lookupA st.serviceCache c.hashed_auth_payload = none →
      truthyS sid = false →
      passwordCredentialsBody c = .ok pbody →
      (rxt_auth_main up now c "apiKeyCredentials" body sid st posts env).retries = 1 ∧
      (rxt_auth_main up now c "apiKeyCredentials" body sid st posts env).posts =
        posts ++ [⟨body, st.rxt_headers⟩, ⟨pbody, st.rxt_headers⟩] ∧
      (rxt_auth_main up now c "apiKeyCredentials" body sid st posts env).res =
        .error (.unauthorized (authFailMsg "passwordCredentials"))) ∧
    (∀ (up : Upstream) (now : Int) (c : Creds) (body : JVal) (sid : Option String)
      (st : ProcState) (posts : List PostRecord) (env : Env),
      (∀ n, isHttpFailure (up n) = true) →
      lookupA st.serviceCache c.hashed_auth_payload = none →
      truthyS sid = false →
      (rxt_auth_main up now c "passwordCredentials" body sid st posts env).retries = 0 ∧
      (rxt_auth_main up now c "passwordCredentials" body sid st posts env).posts =
        posts ++ [⟨body, st.rxt_headers⟩] ∧
      (rxt_auth_main up now c "passwordCredentials" body sid st posts env).res =
        .error (.unauthorized (authFailMsg "passwordCredentials"))) := by
  have step_fail : ∀ (up : Upstream) (now : Int) (c : Creds) (at_ : String) (body : JVal)
      (sid : Option String) (st : ProcState) (posts : List PostRecord) (env : Env),
      isHttpFailure (up posts.length) = true →
      lookupA st.serviceCache c.hashed_auth_payload = none →
      truthyS sid = false →
      rxt_auth_step up now c at_ body sid st posts env =
        ⟨.error .httpError, st, posts ++ [⟨body, st.rxt_headers⟩], env⟩ := by
    intro up now c at_ body sid st posts env hup hcache hsid
    cases hu : up posts.length with
    | connFail => rw [hu] at hup; simp [isHttpFailure] at hup
    | resp r =>
      rw [hu] at hup
      simp only [isHttpFailure, Bool.and_eq_true, Bool.not_eq_eq_eq_not, Bool.not_true] at hup
      obtain ⟨⟨h4, h6⟩, hnot⟩ := hup
      rw [step_miss up now c at_ body sid st posts env hcache]
      exact postPhase_httpError up c at_ body sid st posts env r
        (by simp [hsid]) hu hnot (by simp [h4, h6])
  constructor
  · intro up now c body pbody sid st posts env hup hcache hsid hpb
    have h1 := step_fail up now c "apiKeyCredentials" body sid st posts env
      (hup posts.length) hcache hsid
    have h2 := step_fail up now c "passwordCredentials" pbody sid st
      (posts ++ [PostRecord.mk body st.rxt_headers]) env (hup _) hcache hsid
    have e1 : rxt_auth_rec (998 + 1) up now c "passwordCredentials" pbody sid st
        (posts ++ [PostRecord.mk body st.rxt_headers]) env =
        ⟨.error (.unauthorized (authFailMsg "passwordCredentials")), st,
          posts ++ [PostRecord.mk body st.rxt_headers] ++ [PostRecord.mk pbody st.rxt_headers],
          env, 0⟩ :=
      rec_http_other 998 up now c "passwordCredentials" pbody sid st
        (posts ++ [PostRecord.mk body st.rxt_headers]) env st
        (posts ++ [PostRecord.mk body st.rxt_headers] ++ [PostRecord.mk pbody st.rxt_headers])
        env h2 rfl
    rw [main_eq_rec, rec_http_api 999 up now c body sid st posts env st
      (posts ++ [PostRecord.mk body st.rxt_headers]) env pbody h1 hpb,
      show (999 : Nat) = 998 + 1 from rfl, e1]
    simp
  · intro up now c body sid st posts env hup hcache hsid
    have h1 := step_fail up now c "passwordCredentials" body sid st posts env
      (hup posts.length) hcache hsid
    rw [main_eq_rec, rec_http_other 999 up now c "passwordCredentials" body sid st posts env
      st (posts ++ [PostRecord.mk body st.rxt_headers]) env h1 rfl]
    exact ⟨rfl, rfl, rfl⟩

/-- Witness for C2: the hex-password payload against an upstream that
always answers 403 retries exactly once with the password kind and ends
`Unauthorized`. -/
theorem C2_apiKey_fallback_once_witness :
    (rxt_auth_main upFail403 5 credsHex "apiKeyCredentials"
      (apiKeyBody "alice" (.str "deadbeefdeadbeefdeadbeefdeadbeef"))
      none stEmpty [] []).retries = 1 ∧
    (rxt_auth_main upFail403 5 credsHex "apiKeyCredentials"
      (apiKeyBody "alice" (.str "deadbeefdeadbeefdeadbeefdeadbeef"))
      none stEmpty [] []).posts =
      [] ++ [⟨apiKeyBody "alice" (.str "deadbeefdeadbeefdeadbeefdeadbeef"), stEmpty.rxt_headers⟩,
        ⟨passwordBody "alice" (.str "deadbeefdeadbeefdeadbeefdeadbeef"), stEmpty.rxt_headers⟩] ∧
    (rxt_auth_main upFail403 5 credsHex "apiKeyCredentials"
      (apiKeyBody "alice" (.str "deadbeefdeadbeefdeadbeefdeadbeef"))
      none stEmpty [] []).res =
      .error (.unauthorized (authFailMsg "passwordCredentials")) :=
  C2_apiKey_fallback_once.1 upFail403 5 credsHex
    (apiKeyBody "alice" (.str "deadbeefdeadbeefdeadbeefdeadbeef"))
    (passwordBody "alice" (.str "deadbeefdeadbeefdeadbeefdeadbeef"))
    none stEmpty [] [] (fun _ => rfl) rfl rfl rfl

/-- C3 counterexample: a cached catalog whose `expires` value is present
but unparsable is NOT evicted and the flow does NOT proceed as a cache
miss — the dateutil parse error propagates to the caller as a raw
exception, and the malformed entry stays in the cache, contradicting the
claim that a malformed expiry is evicted without surfacing any error. -/
theorem C3_unparsable_expiry_counterexample :
    (authenticate upOK 5 stCachedBad pPlain).result = .raised .dateParseError ∧
    lookupA (authenticate upOK 5 stCachedBad pPlain).st.serviceCache
      (sha224_hexdigest (dumps pPlain)) = some catBadExp := ⟨rfl, rfl⟩

/-- C3 (amended): a cached catalog whose embedded `expires` is parseable
but not strictly in the future is never served — it is evicted and the
flow proceeds exactly as a cache miss on the evicted state; a cached
catalog whose expiry chain is missing (`KeyError`) is likewise evicted
and the flow proceeds; but a cached catalog whose `expires` value is
present and unparsable makes the parse error propagate to the caller,
with the entry left in the cache. -/
theorem C3_expiry_eviction_amended :
    (∀ (up : Upstream) (now : Int) (c : Creds) (at_ : String) (body : JVal)
      (sid : Option String) (st : ProcState) (posts : List PostRecord) (env : Env)
      (sc : JVal) (es : String) (t : Int),
      lookupA st.serviceCache c.hashed_auth_payload = some sc →
      truthy sc = true →
      getChain sc ["access", "token", "expires"] = .ok (.str es) →
      parseTimestamp es = some t →
      t ≤ now →
      rxt_auth_step up now c at_ body sid st posts env =
        rxt_auth_postPhase up c at_ body sid
          { st with serviceCache := delA st.serviceCache c.hashed_auth_payload } posts env ∧
      lookupA (delA st.serviceCache c.hashed_auth_payload) c.hashed_auth_payload = none) ∧
    (∀ (up : Upstream) (now : Int) (c : Creds) (at_ : String) (body : JVal)
      (sid : Option String) (st : ProcState) (posts : List PostRecord) (env : Env) (sc : JVal),
      lookupA st.serviceCache c.hashed_auth_payload = some sc →
      truthy sc = true →
      getChain sc ["access", "token", "expires"] = .error .keyError →
      rxt_auth_step up now c at_ body sid st posts env =
        rxt_auth_postPhase up c at_ body sid
          { st with serviceCache := delA st.serviceCache c.hashed_auth_payload } posts env ∧
      lookupA (delA st.serviceCache c.hashed_auth_payload) c.hashed_auth_payload = none) ∧
    (∀ (up : Upstream) (now : Int) (c : Creds) (at_ : String) (body : JVal)
      (sid : Option String) (st : ProcState) (posts : List PostRecord) (env : Env)
      (sc : JVal) (es : String),
      lookupA st.serviceCache c.hashed_auth_payload = some sc →
      truthy sc = true →
      getChain sc ["access", "token", "expires"] = .ok (.str es) →
      parseTimestamp es = none →
      rxt_auth_step up now c at_ body sid st posts env =
        ⟨.error .dateParseError, st, posts, env⟩) := by
  refine ⟨?_, ?_, ?_⟩
  · intro up now c at_ body sid st posts env sc es t hl ht he hp hn
    exact ⟨step_hit_stale up now c at_ body sid st posts env sc es t hl ht he hp hn,
      lookupA_delA_self _ _⟩
  · intro up now c at_ body sid st posts env sc hl ht he
    exact ⟨step_hit_nokey up now c at_ body sid st posts env sc hl ht he,
      lookupA_delA_self _ _⟩
  · intro up now c at_ body sid st posts env sc es hl ht he hp
    exact step_hit_noparse up now c at_ body sid st posts env sc es hl ht he hp

/-- Witness for C3 (amended): at time 200 the cached catalog expiring at
100 is evicted and the flow proceeds as a cache miss. -/
theorem C3_expiry_eviction_amended_witness :
    rxt_auth_step upOK 200 credsPlain "passwordCredentials" (passwordBody "bob" (.str "hunter2"))
      none stCachedOK [] [] =
      rxt_auth_postPhase upOK credsPlain "passwordCredentials"
        (passwordBody "bob" (.str "hunter2")) none
        { stCachedOK with
          serviceCache := delA stCachedOK.serviceCache credsPlain.hashed_auth_payload } [] [] ∧
    lookupA (delA stCachedOK.serviceCache credsPlain.hashed_auth_payload)
      credsPlain.hashed_auth_payload = none :=
  C3_expiry_eviction_amended.1 upOK 200 credsPlain "passwordCredentials"
    (passwordBody "bob" (.str "hunter2")) none stCachedOK [] [] catOK "100" 100
    rfl rfl rfl rfl (by decide)

/-- `__init__` stores the payload and derives both fingerprints: the
payload fingerprint from the canonical dump, the user fingerprint from
the username alone. -/
theorem rxt_init_shape (p : JVal) (c : Creds) (h : rxt_init p = .ok c) :
    c.auth_payload = p ∧ c.hashed_auth_payload = sha224_hexdigest (dumps p) ∧
    c.hashed_auth_user = sha224_hexdigest c.username := by
  rw [rxt_init] at h
  split at h
  · simp at h
  · split at h
    · simp at h
    · injection h with h2
      subst h2
      exact ⟨rfl, rfl, rfl⟩

/-- On the Rackspace-domain path, `authenticate` is the composition of
`__init__`, `__enter__` and `rxt_auth`. -/
theorem authenticate_flow (up : Upstream) (now : Int) (st : ProcState) (p dv : JVal)
    (c : Creds) (sel : SelResult) (st1 : ProcState)
    (hd : getChain p ["user", "domain", "name"] = .ok dv)
    (hdv : jEqStr dv rxtDomain = true)
    (hi : rxt_init p = .ok c)
    (he : rxt_enter c st = .ok (sel, st1)) :
    authenticate up now st p =
      doneToCall (rxt_auth_main up now c sel.auth_type sel.auth_data sel.session_id st1 [] []) := by
  simp [authenticate, hd, hdv, hi, he]

/-- What `__enter__` returns: its `session_id` is the extraction from the
session cache, it never touches either cache, and it selects one of the
three credential kinds. -/
theorem rxt_enter_cases (c : Creds) (st : ProcState) (sel : SelResult) (st1 : ProcState)
    (h : rxt_enter c st = .ok (sel, st1)) :
    sel.session_id = sessionID st.sessionCache c.hashed_auth_user ∧
    st1.sessionCache = st.sessionCache ∧
    st1.serviceCache = st.serviceCache ∧
    (sel.auth_type = "passcodeCredentials" ∨ sel.auth_type = "apiKeyCredentials" ∨
      sel.auth_type = "passwordCredentials") := by
  simp only [rxt_enter] at h
  cases hpc : passcodeOf c.auth_payload with
  | error e => rw [hpc] at h; simp at h
  | ok pc =>
    rw [hpc] at h
    simp only at h
    by_cases hb : (truthyJ pc && truthyS (sessionID st.sessionCache c.hashed_auth_user)) = true
    · rw [if_pos hb] at h
      injection h with h2
      injection h2 with h3 h4
      subst h3; subst h4
      exact ⟨rfl, rfl, rfl, Or.inl rfl⟩
    · rw [if_neg hb] at h
      cases hpw : passwordOf c.auth_payload with
      | error e => rw [hpw] at h; simp at h
      | ok pwv =>
        rw [hpw] at h
        simp only at h
        cases hs : asString pwv with
        | error e => rw [hs] at h; simp at h
        | ok pw =>
          rw [hs] at h
          simp only at h
          by_cases hm : hashTypesMatch pw = true
          · rw [if_pos hm] at h
            injection h with h2
            injection h2 with h3 h4
            subst h3; subst h4
            exact ⟨rfl, rfl, rfl, Or.inr (Or.inl rfl)⟩
          · rw [if_neg hm] at h
            injection h with h2
            injection h2 with h3 h4
            subst h3; subst h4
            exact ⟨rfl, rfl, rfl, Or.inr (Or.inr rfl)⟩

/-- If `__enter__` selected the api-key kind, the password property is
re-evaluable: the fallback body of `rxt_auth` cannot raise. -/
theorem rxt_enter_apiKey_pw (c : Creds) (st : ProcState) (sel : SelResult) (st1 : ProcState)
    (h : rxt_enter c st = .ok (sel, st1)) (hk : sel.auth_type = "apiKeyCredentials") :
    ∃ pb, passwordCredentialsBody c = .ok pb := by
  simp only [rxt_enter] at h
  cases hpc : passcodeOf c.auth_payload with
  | error e => rw [hpc] at h; simp at h
  | ok pc =>
    rw [hpc] at h
    simp only at h
    by_cases hb : (truthyJ pc && truthyS (sessionID st.sessionCache c.hashed_auth_user)) = true
    · rw [if_pos hb] at h
      injection h with h2
      injection h2 with h3 h4
      subst h3
      simp at hk
    · rw [if_neg hb] at h
      cases hpw : passwordOf c.auth_payload with
      | error e => rw [hpw] at h; simp at h
      | ok pwv =>
        exact ⟨passwordBody c.username pwv, by simp [passwordCredentialsBody, hpw]⟩

/-- C4: a 401 upstream response carrying a `WWW-Authenticate` header is
not an error — the header value is cached in the session cache under the
user fingerprint (the digest of the username alone), and the call
returns the pending-MFA auth handler response (`status=False`, no
response data). -/
theorem C4_mfa_challenge_capture :
    ∀ (up : Upstream) (now : Int) (st : ProcState) (p dv : JVal) (c : Creds)
      (sel : SelResult) (st1 : ProcState) (r : HttpResponse) (w : String),
      getChain p ["user", "domain", "name"] = .ok dv →
      jEqStr dv rxtDomain = true →
      rxt_init p = .ok c →
      rxt_enter c st = .ok (sel, st1) →
      lookupA st1.serviceCache c.hashed_auth_payload = none →
      (truthyS sel.session_id && sel.auth_type == "passwordCredentials") = false →
      up 0 = .resp r →
      r.status = 401 →
      lookupA r.headers "WWW-Authenticate" = some w →
      (authenticate up now st p).result = .handled ⟨false, none, none⟩ ∧
      (authenticate up now st p).st.sessionCache =
        setA st1.sessionCache c.hashed_auth_user w ∧
      c.hashed_auth_user = sha224_hexdigest c.username := by
  intro up now st p dv c sel st1 r w hd hdv hi he hcache hcond hup h401 hw
  have hstep := (step_miss up now c sel.auth_type sel.auth_data sel.session_id st1 [] []
      hcache).trans
    (postPhase_mfa up c sel.auth_type sel.auth_data sel.session_id st1 [] [] r w
      hcond hup h401 hw)
  have hrec := rec_ok_true 999 up now c sel.auth_type sel.auth_data sel.session_id st1 [] []
    _ _ _ hstep
  rw [authenticate_flow up now st p dv c sel st1 hd hdv hi he, main_eq_rec, hrec]
  exact ⟨rfl, rfl, (rxt_init_shape p c hi).2.2⟩

/-- Witness for C4: the plain-password payload against a 401-challenge
upstream caches the challenge header for the user and returns the
pending-MFA response. -/
theorem C4_mfa_challenge_capture_witness :
    (authenticate up401W 5 stEmpty pPlain).result = .handled ⟨false, none, none⟩ ∧
    (authenticate up401W 5 stEmpty pPlain).st.sessionCache =
      setA stEmpty.sessionCache credsPlain.hashed_auth_user chalW ∧
    credsPlain.hashed_auth_user = sha224_hexdigest credsPlain.username :=
  C4_mfa_challenge_capture up401W 5 stEmpty pPlain (.str rxtDomain) credsPlain
    ⟨"passwordCredentials", passwordBody "bob" (.str "hunter2"), none⟩ stEmpty
    ⟨401, [("WWW-Authenticate", chalW)], none⟩ chalW rfl rfl rfl rfl rfl rfl rfl rfl rfl

/-- C5: with no valid cached catalog, a cached session header for the
user from which a session id extracts, and the password kind selected
(no passcode submitted), the call returns the pending-MFA response
immediately and performs no upstream POST. -/
theorem C5_pending_mfa_short_circuit :
    ∀ (up : Upstream) (now : Int) (st : ProcState) (p dv : JVal) (c : Creds)
      (sel : SelResult) (st1 : ProcState) (s : String),
      getChain p ["user", "domain", "name"] = .ok dv →
      jEqStr dv rxtDomain = true →
      rxt_init p = .ok c →
      rxt_enter c st = .ok (sel, st1) →
      lookupA st1.serviceCache c.hashed_auth_payload = none →
      sel.auth_type = "passwordCredentials" →
      sessionID st.sessionCache c.hashed_auth_user = some s →
      (authenticate up now st p).result = .handled ⟨false, none, none⟩ ∧
      (authenticate up now st p).posts = [] := by
  intro up now st p dv c sel st1 s hd hdv hi he hcache hk hsid
  have hsel := (rxt_enter_cases c st sel st1 he).1
  have hts : truthyS sel.session_id = true := by
    rw [hsel, hsid]
    exact truthyS_of_ne s (sessionID_ne_empty _ _ _ hsid)
  have hcond : (truthyS sel.session_id && sel.auth_type == "passwordCredentials") = true := by
    rw [hts, hk]; simp
  have hstep := (step_miss up now c sel.auth_type sel.auth_data sel.session_id st1 [] []
      hcache).trans
    (postPhase_shortcut up c sel.auth_type sel.auth_data sel.session_id st1 [] [] hcond)
  have hrec := rec_ok_true 999 up now c sel.auth_type sel.auth_data sel.session_id st1 [] []
    _ _ _ hstep
  rw [authenticate_flow up now st p dv c sel st1 hd hdv hi he, main_eq_rec, hrec]
  exact ⟨rfl, rfl⟩

/-- Witness for C5: bob has a cached session header and submits a plain
password; the call returns pending-MFA with zero POSTs. -/
theorem C5_pending_mfa_short_circuit_witness :
    (authenticate upOK 5 stSessBob pPlain).result = .handled ⟨false, none, none⟩ ∧
    (authenticate upOK 5 stSessBob pPlain).posts = [] :=
  C5_pending_mfa_short_circuit upOK 5 stSessBob pPlain (.str rxtDomain) credsPlain
    ⟨"passwordCredentials", passwordBody "bob" (.str "hunter2"), some "sess42"⟩ stSessBob
    "sess42" rfl rfl rfl rfl rfl rfl rfl

/-- Membership in the deduplicated segment list: exactly the input
segments not already seen. -/
theorem dedupAux_mem (x : String) :
    ∀ (l seen : List String), x ∈ dedupAux seen l ↔ (x ∈ l ∧ seen.contains x = false) := by
  intro l
  induction l with
  | nil => intro seen; simp [dedupAux]
  | cons y ys ih =>
    intro seen
    by_cases h : seen.contains y = true
    · rw [dedupAux, if_pos h, ih seen]
      constructor
      · rintro ⟨hmem, hc⟩
        exact ⟨List.mem_cons_of_mem _ hmem, hc⟩
      · rintro ⟨hmem, hc⟩
        rcases List.mem_cons.mp hmem with rfl | hmem2
        · rw [hc] at h; cases h
        · exact ⟨hmem2, hc⟩
    · rw [dedupAux, if_neg h]
      have h2 : seen.contains y = false := by
        revert h; cases seen.contains y <;> simp
      constructor
      · intro hmem
        rcases List.mem_cons.mp hmem with rfl | hmem2
        · exact ⟨List.mem_cons_self _ _, h2⟩
        · obtain ⟨ha, hb⟩ := (ih (y :: seen)).mp hmem2
          simp only [List.contains_cons, Bool.or_eq_false_iff] at hb
          exact ⟨List.mem_cons_of_mem _ ha, hb.2⟩
      · rintro ⟨hmem, hc⟩
        rcases List.mem_cons.mp hmem with rfl | hmem2
        · exact List.mem_cons_self _ _
        · by_cases hxy : (x == y) = true
          · have : x = y := by simpa using hxy
            subst this
            exact List.mem_cons_self _ _
          · have hxy2 : (x == y) = false := by
              revert hxy; cases x == y <;> simp
            refine List.mem_cons_of_mem _ ((ih (y :: seen)).mpr ⟨hmem2, ?_⟩)
            rw [List.contains_cons, hxy2, hc]
            rfl

/-- The deduplicated segment list has no duplicates (set semantics). -/
theorem dedupAux_nodup : ∀ (l seen : List String), (dedupAux seen l).Nodup := by
  intro l
  induction l with
  | nil => intro seen; simp [dedupAux]
  | cons y ys ih =>
    intro seen
    by_cases h : seen.contains y = true
    · rw [dedupAux, if_pos h]; exact ih seen
    · rw [dedupAux, if_neg h]
      refine List.nodup_cons.mpr ⟨?_, ih (y :: seen)⟩
      intro hmem
      have hc := ((dedupAux_mem y ys (y :: seen)).mp hmem).2
      simp [List.contains_cons] at hc

/-- The six environment entries written by `set_federation_env` when all
values are truthy. -/
theorem set_federation_env_lookups (env : Env) (u em d tn ti : JVal) (opt : String)
    (hu : truthy u = true) (hem : truthy em = true) (hd : truthy d = true)
    (htn : truthy tn = true) (hti : truthy ti = true) (ho : (opt == "") = false) :
    lookupA (set_federation_env env u em d tn ti opt) "RXT_UserName" = some u ∧
    lookupA (set_federation_env env u em d tn ti opt) "RXT_Email" = some em ∧
    lookupA (set_federation_env env u em d tn ti opt) "RXT_DomainID" = some d ∧
    lookupA (set_federation_env env u em d tn ti opt) "RXT_TenantName" = some tn ∧
    lookupA (set_federation_env env u em d tn ti opt) "RXT_TenantID" = some ti ∧
    lookupA (set_federation_env env u em d tn ti opt) "RXT_orgPersonType" = some (.str opt) := by
  simp only [set_federation_env, hu, hem, hd, htn, hti, ho, if_true, Bool.not_false]
  refine ⟨?_, ?_, ?_, ?_, ?_, ?_⟩
  · rw [lookupA_setA_ne _ "RXT_orgPersonType" "RXT_UserName" _ rfl,
      lookupA_setA_ne _ "RXT_TenantID" "RXT_UserName" _ rfl,
      lookupA_setA_ne _ "RXT_TenantName" "RXT_UserName" _ rfl,
      lookupA_setA_ne _ "RXT_DomainID" "RXT_UserName" _ rfl,
      lookupA_setA_ne _ "RXT_Email" "RXT_UserName" _ rfl]
    exact lookupA_setA_self _ _ _
  · rw [lookupA_setA_ne _ "RXT_orgPersonType" "RXT_Email" _ rfl,
      lookupA_setA_ne _ "RXT_TenantID" "RXT_Email" _ rfl,
      lookupA_setA_ne _ "RXT_TenantName" "RXT_Email" _ rfl,
      lookupA_setA_ne _ "RXT_DomainID" "RXT_Email" _ rfl]
    exact lookupA_setA_self _ _ _
  · rw [lookupA_setA_ne _ "RXT_orgPersonType" "RXT_DomainID" _ rfl,
      lookupA_setA_ne _ "RXT_TenantID" "RXT_DomainID" _ rfl,
      lookupA_setA_ne _ "RXT_TenantName" "RXT_DomainID" _ rfl]
    exact lookupA_setA_self _ _ _
  · rw [lookupA_setA_ne _ "RXT_orgPersonType" "RXT_TenantName" _ rfl,
      lookupA_setA_ne _ "RXT_TenantID" "RXT_TenantName" _ rfl]
    exact lookupA_setA_self _ _ _
  · rw [lookupA_setA_ne _ "RXT_orgPersonType" "RXT_TenantID" _ rfl]
    exact lookupA_setA_self _ _ _
  · exact lookupA_setA_self _ _ _

/-- C6 counterexample: a catalog whose email field is present but empty
translates successfully yet emits NO `RXT_Email` attribute — fewer than
the six claimed attributes, with no error raised — because
`set_federation_env` skips falsy values. -/
theorem C6_empty_field_counterexample :
    parse_service_catalog [] catNoEmail = .ok envNoEmail ∧
    lookupA envNoEmail "RXT_Email" = none := ⟨rfl, rfl⟩

/-- C6 (amended): given a catalog from which all required fields extract
and all extracted values are truthy (non-empty), the translator emits
exactly the six attributes — username, email, domain id, tenant name,
tenant id, and the role-type string, which is the semicolon-join of the
deduplicated last-colon-segments of the role names (set semantics: no
duplicates, same membership; e.g. roles `foo:bar`,`foo:admin` yield
`bar;admin`); an attribute whose extracted value is empty is silently
omitted; any missing required field raises `Unauthorized`
(`CatalogMalformed`) and, the extraction preceding the single
environment write, no partial attribute set is ever emitted. -/
theorem C6_catalog_translation_amended :
    (∀ (env : Env) (sc : JVal) (u em d tn ti : JVal) (opt : String),
      pscExtract sc = .ok (u, em, d, tn, ti, opt) →
      truthy u = true → truthy em = true → truthy d = true →
      truthy tn = true → truthy ti = true → (opt == "") = false →
      parse_service_catalog env sc = .ok (set_federation_env env u em d tn ti opt) ∧
      lookupA (set_federation_env env u em d tn ti opt) "RXT_UserName" = some u ∧
      lookupA (set_federation_env env u em d tn ti opt) "RXT_Email" = some em ∧
      lookupA (set_federation_env env u em d tn ti opt) "RXT_DomainID" = some d ∧
      lookupA (set_federation_env env u em d tn ti opt) "RXT_TenantName" = some tn ∧
      lookupA (set_federation_env env u em d tn ti opt) "RXT_TenantID" = some ti ∧
      lookupA (set_federation_env env u em d tn ti opt) "RXT_orgPersonType" = some (.str opt)) ∧
    (∀ (env : Env) (sc : JVal), pscExtract sc = .error .keyError →
      parse_service_catalog env sc = .error (.unauthorized catalogMsg)) ∧
    (∀ (segs : List String), (dedupFirst segs).Nodup ∧
      (∀ x, x ∈ dedupFirst segs ↔ x ∈ segs)) ∧
    (roleSegsOf [.obj [("name", .str "foo:bar")], .obj [("name", .str "foo:admin")]] =
        .ok ["bar", "admin"] ∧
      String.intercalate ";" (dedupFirst ["bar", "admin"]) = "bar;admin") ∧
    (∀ (up : Upstream) (c : Creds) (at_ : String) (body : JVal) (sid : Option String)
      (st : ProcState) (posts : List PostRecord) (env : Env) (r : HttpResponse)
      (sc : JVal) (e : RxtErr),
      (truthyS sid && at_ == "passwordCredentials") = false →
      up posts.length = .resp r →
      (r.status == 401 && (lookupA r.headers "WWW-Authenticate").isSome) = false →
      ((400 ≤ r.status && r.status < 600 : Bool)) = false →
      r.jsonBody = some sc →
      parse_service_catalog env sc = .error e →
      (rxt_auth_postPhase up c at_ body sid st posts env).env = env ∧
      (rxt_auth_postPhase up c at_ body sid st posts env).res = .error e) := by
  refine ⟨?_, ?_, ?_, ⟨rfl, rfl⟩, ?_⟩
  · intro env sc u em d tn ti opt hext hu hem hd htn hti ho
    refine ⟨by simp [parse_service_catalog, hext], ?_⟩
    exact set_federation_env_lookups env u em d tn ti opt hu hem hd htn hti ho
  · intro env sc hext
    simp [parse_service_catalog, hext]
  · intro segs
    exact ⟨dedupAux_nodup segs [], fun x => by simp [dedupFirst, dedupAux_mem]⟩
  · intro up c at_ body sid st posts env r sc e hcond hup h401 herr hbody hparse
    simp only [rxt_auth_postPhase, hcond, Bool.false_eq_true, if_false, hup]
    rw [if_neg (by simp [h401]), if_neg (by simp [herr])]
    simp [hbody, hparse]

/-- Witness for C6 (amended): on the well-formed catalog, the translator
emits exactly the six attributes with role-type string `bar;admin`. -/
theorem C6_catalog_translation_amended_witness :
    parse_service_catalog [] catOK =
      .ok (set_federation_env [] (.str "alice") (.str "a@b.c") (.str "d1") (.str "t1")
        (.str "tid1") "bar;admin") ∧
    lookupA (set_federation_env [] (.str "alice") (.str "a@b.c") (.str "d1") (.str "t1")
      (.str "tid1") "bar;admin") "RXT_UserName" = some (.str "alice") ∧
    lookupA (set_federation_env [] (.str "alice") (.str "a@b.c") (.str "d1") (.str "t1")
      (.str "tid1") "bar;admin") "RXT_Email" = some (.str "a@b.c") ∧
    lookupA (set_federation_env [] (.str "alice") (.str "a@b.c") (.str "d1") (.str "t1")
      (.str "tid1") "bar;admin") "RXT_DomainID" = some (.str "d1") ∧
    lookupA (set_federation_env [] (.str "alice") (.str "a@b.c") (.str "d1") (.str "t1")
      (.str "tid1") "bar;admin") "RXT_TenantName" = some (.str "t1") ∧
    lookupA (set_federation_env [] (.str "alice") (.str "a@b.c") (.str "d1") (.str "t1")
      (.str "tid1") "bar;admin") "RXT_TenantID" = some (.str "tid1") ∧
    lookupA (set_federation_env [] (.str "alice") (.str "a@b.c") (.str "d1") (.str "t1")
      (.str "tid1") "bar;admin") "RXT_orgPersonType" = some (.str "bar;admin") :=
  C6_catalog_translation_amended.1 [] catOK (.str "alice") (.str "a@b.c") (.str "d1")
    (.str "t1") (.str "tid1") "bar;admin" rfl rfl rfl rfl rfl rfl rfl

/-- `__enter__` reads the process state only through the session cache:
two states with the same session cache produce the same selection. -/
theorem rxt_enter_congr (c : Creds) (st st2 : ProcState) (sel : SelResult) (st1 : ProcState)
    (hsc : st2.sessionCache = st.sessionCache)
    (h : rxt_enter c st = .ok (sel, st1)) :
    ∃ st3, rxt_enter c st2 = .ok (sel, st3) ∧
      st3.sessionCache = st2.sessionCache ∧ st3.serviceCache = st2.serviceCache := by
  simp only [rxt_enter] at h ⊢
  rw [hsc]
  cases hpc : passcodeOf c.auth_payload with
  | error e => simp only [hpc] at h; simp at h
  | ok pc =>
    simp only [hpc] at h ⊢
    by_cases hb : (truthyJ pc && truthyS (sessionID st.sessionCache c.hashed_auth_user)) = true
    · rw [if_pos hb] at h ⊢
      injection h with h2
      injection h2 with h3 h4
      subst h3
      exact ⟨_, rfl, rfl, rfl⟩
    · rw [if_neg hb] at h ⊢
      cases hpw : passwordOf c.auth_payload with
      | error e => simp only [hpw] at h; simp at h
      | ok pwv =>
        simp only [hpw] at h ⊢
        cases hs : asString pwv with
        | error e => simp only [hs] at h; simp at h
        | ok pw =>
          simp only [hs] at h ⊢
          by_cases hm : hashTypesMatch pw = true
          · rw [if_pos hm] at h ⊢
            injection h with h2
            injection h2 with h3 h4
            subst h3
            exact ⟨st2, rfl, hsc, rfl⟩
          · rw [if_neg hm] at h ⊢
            injection h with h2
            injection h2 with h3 h4
            subst h3
            exact ⟨st2, rfl, hsc, rfl⟩

/-- A successful subscript implies the subscripted dict is truthy. -/
theorem getKey_ok_truthy (v : JVal) (k : String) (w : JVal) (h : getKey v k = .ok w) :
    truthy v = true := by
  cases v with
  | str s => simp [getKey] at h
  | arr xs => simp [getKey] at h
  | obj kvs =>
    cases kvs with
    | nil => simp [getKey, lookupA] at h
    | cons p rest => simp [truthy]

/-- A catalog that translates successfully is truthy (it has an `access`
key). -/
theorem parse_ok_access (env : Env) (sc : JVal) (env2 : Env)
    (h : parse_service_catalog env sc = .ok env2) : truthy sc = true := by
  cases hacc : getKey sc "access" with
  | ok a => exact getKey_ok_truthy sc "access" a hacc
  | error e =>
    exfalso
    have hpe : pscExtract sc = .error e := by
      simp [pscExtract, hacc]
    rw [parse_service_catalog, hpe] at h
    cases e <;> simp at h

/-- C7: after a first `authenticate` call whose upstream success stored a
catalog with a strictly-future expiry into the service cache under the
payload fingerprint, an immediate second call with the unchanged payload
performs no upstream POST at all — it is answered entirely from the
cached catalog, for every behaviour of the upstream on the second
call. -/
theorem C7_cache_idempotence :
    ∀ (up up2 : Upstream) (now : Int) (st0 : ProcState) (p dv : JVal) (c : Creds)
      (sel : SelResult) (st1 : ProcState) (r : HttpResponse) (sc : JVal) (envX : Env)
      (es : String) (t : Int),
      getChain p ["user", "domain", "name"] = .ok dv →
      jEqStr dv rxtDomain = true →
      rxt_init p = .ok c →
      rxt_enter c st0 = .ok (sel, st1) →
      lookupA st1.serviceCache c.hashed_auth_payload = none →
      (truthyS sel.session_id && sel.auth_type == "passwordCredentials") = false →
      up 0 = .resp r →
      (r.status == 401 && (lookupA r.headers "WWW-Authenticate").isSome) = false →
      ((400 ≤ r.status && r.status < 600 : Bool)) = false →
      r.jsonBody = some sc →
      parse_service_catalog [] sc = .ok envX →
      getChain sc ["access", "token", "expires"] = .ok (.str es) →
      parseTimestamp es = some t →
      now < t →
      (authenticate up now st0 p).result = .handled (return_auth_handler envX) ∧
      (authenticate up now st0 p).posts.length = 1 ∧
      (authenticate up2 now (authenticate up now st0 p).st p).posts = [] ∧
      (authenticate up2 now (authenticate up now st0 p).st p).result =
        .handled (return_auth_handler envX) := by
  intro up up2 now st0 p dv c sel st1 r sc envX es t hd hdv hi he hcache hcond hup h401
    herr hbody hparse hexp hts hnow
  have hstep1 := (step_miss up now c sel.auth_type sel.auth_data sel.session_id st1 [] []
      hcache).trans
    (postPhase_success up c sel.auth_type sel.auth_data sel.session_id st1 [] [] r sc envX
      hcond hup h401 herr hbody hparse)
  have hrec1 := rec_ok_false 999 up now c sel.auth_type sel.auth_data sel.session_id st1 [] []
    _ _ _ hstep1
  have hcall1 : authenticate up now st0 p =
      doneToCall ⟨.ok (return_auth_handler envX),
        { st1 with serviceCache := setA st1.serviceCache c.hashed_auth_payload sc },
        [] ++ [⟨sel.auth_data, st1.rxt_headers⟩], envX, 0⟩ := by
    rw [authenticate_flow up now st0 p dv c sel st1 hd hdv hi he, main_eq_rec, hrec1]
  have hsc2 : ({ st1 with serviceCache := setA st1.serviceCache c.hashed_auth_payload sc }
      : ProcState).sessionCache = st0.sessionCache :=
    (rxt_enter_cases c st0 sel st1 he).2.1
  obtain ⟨st3, he2, hsc3, hsvc3⟩ := rxt_enter_congr c st0
    { st1 with serviceCache := setA st1.serviceCache c.hashed_auth_payload sc } sel st1 hsc2 he
  have hl2 : lookupA st3.serviceCache c.hashed_auth_payload = some sc := by
    rw [hsvc3]
    exact lookupA_setA_self _ _ _
  have htr : truthy sc = true := parse_ok_access [] sc envX hparse
  have hstep2 := step_hit_valid up2 now c sel.auth_type sel.auth_data sel.session_id st3 [] []
    sc es t envX hl2 htr hexp hts hnow hparse
  have hrec2 := rec_ok_false 999 up2 now c sel.auth_type sel.auth_data sel.session_id st3 [] []
    _ _ _ hstep2
  have hcall2 : authenticate up2 now
      { st1 with serviceCache := setA st1.serviceCache c.hashed_auth_payload sc } p =
      doneToCall ⟨.ok (return_auth_handler envX), st3, [], envX, 0⟩ := by
    rw [authenticate_flow up2 now
      { st1 with serviceCache := setA st1.serviceCache c.hashed_auth_payload sc } p dv c sel
      st3 hd hdv hi he2, main_eq_rec, hrec2]
  have hst : (authenticate up now st0 p).st =
      { st1 with serviceCache := setA st1.serviceCache c.hashed_auth_payload sc } := by
    rw [hcall1]; rfl
  refine ⟨by rw [hcall1]; rfl, by rw [hcall1]; rfl, ?_, ?_⟩
  · rw [hst, hcall2]; rfl
  · rw [hst, hcall2]; rfl

/-- Witness for C7: the plain-password payload against a 200 upstream is
answered from the network once; the immediately following call with the
unchanged payload is answered from the cache with zero POSTs — even
against an upstream that would fail every connection. -/
theorem C7_cache_idempotence_witness :
    (authenticate upOK 5 stEmpty pPlain).result = .handled (return_auth_handler envOK) ∧
    (authenticate upOK 5 stEmpty pPlain).posts.length = 1 ∧
    (authenticate upConn 5 (authenticate upOK 5 stEmpty pPlain).st pPlain).posts = [] ∧
    (authenticate upConn 5 (authenticate upOK 5 stEmpty pPlain).st pPlain).result =
      .handled (return_auth_handler envOK) :=
  C7_cache_idempotence upOK upConn 5 stEmpty pPlain (.str rxtDomain) credsPlain
    ⟨"passwordCredentials", passwordBody "bob" (.str "hunter2"), none⟩ stEmpty
    ⟨200, [], some catOK⟩ catOK envOK "100" 100
    rfl rfl rfl rfl rfl rfl rfl rfl rfl rfl rfl rfl rfl (by decide)

/-- Subscripting raises only `KeyError` or `TypeError`. -/
theorem getKey_error_cases (v : JVal) (k : String) (e : RxtErr) (h : getKey v k = .error e) :
    e = .keyError ∨ e = .typeError := by
  cases v with
  | obj kvs =>
    simp only [getKey] at h
    cases hl : lookupA kvs k with
    | some w => simp [hl] at h
    | none =>
      simp only [hl, Except.error.injEq] at h
      exact Or.inl h.symm
  | str s =>
    simp only [getKey, Except.error.injEq] at h
    exact Or.inr h.symm
  | arr xs =>
    simp only [getKey, Except.error.injEq] at h
    exact Or.inr h.symm

/-- A subscript chain raises only `KeyError` or `TypeError`. -/
theorem getChain_error_cases :
    ∀ (ks : List String) (v : JVal) (e : RxtErr),
      getChain v ks = .error e → e = .keyError ∨ e = .typeError := by
  intro ks
  induction ks with
  | nil => intro v e h; simp [getChain] at h
  | cons k ks ih =>
    intro v e h
    simp only [getChain] at h
    cases hk : getKey v k with
    | ok w =>
      simp only [hk] at h
      exact ih w e h
    | error e2 =>
      simp only [hk, Except.error.injEq] at h
      subst h
      exact getKey_error_cases v k e2 hk

/-- Calling a string method on a non-string raises only `TypeError`. -/
theorem asString_error (v : JVal) (e : RxtErr) (h : asString v = .error e) : e = .typeError := by
  cases v with
  | str s => simp [asString] at h
  | obj kvs =>
    simp only [asString, Except.error.injEq] at h
    exact h.symm
  | arr xs =>
    simp only [asString, Except.error.injEq] at h
    exact h.symm

/-- `_passcode` catches `KeyError`; its only exception is `TypeError`. -/
theorem passcodeOf_error (p : JVal) (e : RxtErr) (h : passcodeOf p = .error e) :
    e = .typeError := by
  simp only [passcodeOf] at h
  cases hch : getChain p ["user", "passcode"] with
  | ok v => simp [hch] at h
  | error e2 =>
    rcases getChain_error_cases _ p e2 hch with rfl | rfl
    · simp [hch] at h
    · simp only [hch, Except.error.injEq] at h
      exact h.symm

/-- `_password` raises either the missing-credential `Unauthorized` (for
a `KeyError` on the lookup chain) or a `TypeError`. -/
theorem passwordOf_cases (p : JVal) (e : RxtErr) (h : passwordOf p = .error e) :
    (e = .unauthorized missingPasswordMsg ∧
      getChain p ["user", "password"] = .error .keyError) ∨ e = .typeError := by
  simp only [passwordOf] at h
  cases hch : getChain p ["user", "password"] with
  | ok v => simp [hch] at h
  | error e2 =>
    rcases getChain_error_cases _ p e2 hch with rfl | rfl
    · simp only [hch, Except.error.injEq] at h
      exact Or.inl ⟨h.symm, rfl⟩
    · simp only [hch, Except.error.injEq] at h
      exact Or.inr h.symm

/-- When the password lookup chain raises `KeyError`, the passcode
property cannot raise: the payload's `user` is either absent or a dict. -/
theorem passcode_ok_of_pw_keyError (p : JVal)
    (h : getChain p ["user", "password"] = .error .keyError) :
    ∃ pc, passcodeOf p = .ok pc := by
  simp only [getChain] at h
  cases hu : getKey p "user" with
  | error e2 =>
    simp only [hu, Except.error.injEq] at h
    subst h
    have h1 : getChain p ["user", "passcode"] = .error .keyError := by
      simp only [getChain, hu]
    exact ⟨none, by simp [passcodeOf, h1]⟩
  | ok u =>
    simp only [hu] at h
    cases u with
    | str s => simp [getChain, getKey] at h
    | arr xs => simp [getChain, getKey] at h
    | obj kvs =>
      have h1 : getChain p ["user", "passcode"] = getChain (JVal.obj kvs) ["passcode"] := by
        simp only [getChain, hu]
      cases hpc : lookupA kvs "passcode" with
      | some v =>
        have h2 : getChain (JVal.obj kvs) ["passcode"] = .ok v := by
          simp only [getChain, getKey, hpc]
        exact ⟨some v, by simp [passcodeOf, h1.trans h2]⟩
      | none =>
        have h2 : getChain (JVal.obj kvs) ["passcode"] = .error .keyError := by
          simp only [getChain, getKey, hpc]
        exact ⟨none, by simp [passcodeOf, h1.trans h2]⟩

/-- C8 counterexample: a payload that carries a passcode but no password
field, for a user with no cached session header, DOES fail with the
missing-credential `Unauthorized` — contradicting the claim that a
passcode-bearing payload without a password never fails with
`MissingCredential`. -/
theorem C8_passcode_without_password_counterexample :
    rxt_init pNoPw = .ok credsNoPw ∧
    rxt_enter credsNoPw stEmpty = .error (.unauthorized missingPasswordMsg) := ⟨rfl, rfl⟩

/-- C8 (amended): credential selection fails with the missing-credential
`Unauthorized` if and only if the `user.password` lookup raises
`KeyError` AND the passcode branch is not taken — that is, it is not the
case that a truthy passcode is present together with an extractable
cached session id.  (A passcode alone does not prevent the failure: with
no cached session header the selection still reads the password.) -/
theorem C8_missing_credential_iff_amended :
    ∀ (c : Creds) (st : ProcState),
      rxt_enter c st = .error (.unauthorized missingPasswordMsg) ↔
        (getChain c.auth_payload ["user", "password"] = .error .keyError ∧
         ∀ pc, passcodeOf c.auth_payload = .ok pc →
           (truthyJ pc && truthyS (sessionID st.sessionCache c.hashed_auth_user)) = false) := by
  intro c st
  constructor
  · intro h
    simp only [rxt_enter] at h
    cases hpc : passcodeOf c.auth_payload with
    | error e =>
      have he := passcodeOf_error c.auth_payload e hpc
      subst he
      simp [hpc] at h
    | ok pc =>
      simp only [hpc] at h
      by_cases hb : (truthyJ pc && truthyS (sessionID st.sessionCache c.hashed_auth_user)) = true
      · rw [if_pos hb] at h
        simp at h
      · rw [if_neg hb] at h
        cases hpw : passwordOf c.auth_payload with
        | ok pwv =>
          simp only [hpw] at h
          cases hs : asString pwv with
          | ok pw =>
            simp only [hs] at h
            by_cases hm : hashTypesMatch pw = true
            · rw [if_pos hm] at h; simp at h
            · rw [if_neg hm] at h; simp at h
          | error e2 =>
            have he2 := asString_error pwv e2 hs
            subst he2
            simp [hs] at h
        | error e1 =>
          simp only [hpw, Except.error.injEq] at h
          rcases passwordOf_cases c.auth_payload e1 hpw with ⟨hmsg, hch⟩ | htype
          · refine ⟨hch, ?_⟩
            intro pc2 hpc2
            injection hpc2 with h3
            subst h3
            revert hb
            cases truthyJ pc && truthyS (sessionID st.sessionCache c.hashed_auth_user) <;> simp
          · subst htype
            simp at h
  · rintro ⟨hch, hall⟩
    obtain ⟨pc, hpc⟩ := passcode_ok_of_pw_keyError c.auth_payload hch
    have hb := hall pc hpc
    have hpw : passwordOf c.auth_payload = .error (.unauthorized missingPasswordMsg) := by
      simp [passwordOf, hch]
    simp [rxt_enter, hpc, hb, hpw]

/-- Witness for C8 (amended): the passcode-without-password payload with
an empty session cache satisfies the amended condition and indeed fails
with the missing-credential `Unauthorized`. -/
theorem C8_missing_credential_iff_amended_witness :
    rxt_enter credsNoPw stEmpty = .error (.unauthorized missingPasswordMsg) :=
  (C8_missing_credential_iff_amended credsNoPw stEmpty).mpr
    ⟨rfl, fun pc hpc => by
      injection hpc with h2
      subst h2
      rfl⟩

/-- The role comprehension raises only `KeyError` or `TypeError`. -/
theorem roleSegsOf_error_cases :
    ∀ (rs : List JVal) (e : RxtErr), roleSegsOf rs = .error e →
      e = .keyError ∨ e = .typeError := by
  intro rs
  induction rs with
  | nil => intro e h; simp [roleSegsOf] at h
  | cons r rest ih =>
    intro e h
    simp only [roleSegsOf] at h
    cases hk : getKey r "name" with
    | error e2 =>
      simp only [hk, Except.error.injEq] at h
      subst h
      exact getKey_error_cases _ _ _ hk
    | ok n =>
      simp only [hk] at h
      cases hs : asString n with
      | error e2 =>
        simp only [hs, Except.error.injEq] at h
        subst h
        exact Or.inr (asString_error _ _ hs)
      | ok s =>
        simp only [hs] at h
        cases hrest : roleSegsOf rest with
        | error e2 =>
          simp only [hrest, Except.error.injEq] at h
          subst h
          exact ih _ hrest
        | ok segs => simp [hrest] at h

/-- The catalog extraction raises only `KeyError` or `TypeError`. -/
theorem pscExtract_error_cases (sc : JVal) (e : RxtErr) (h : pscExtract sc = .error e) :
    e = .keyError ∨ e = .typeError := by
  simp only [pscExtract] at h
  cases h1 : getKey sc "access" with
  | error e1 =>
    simp only [h1, Except.error.injEq] at h
    subst h
    exact getKey_error_cases _ _ _ h1
  | ok access =>
    simp only [h1] at h
    cases h2 : getKey access "user" with
    | error e1 =>
      simp only [h2, Except.error.injEq] at h
      subst h
      exact getKey_error_cases _ _ _ h2
    | ok access_user =>
      simp only [h2] at h
      cases h3 : getKey access "token" with
      | error e1 =>
        simp only [h3, Except.error.injEq] at h
        subst h
        exact getKey_error_cases _ _ _ h3
      | ok access_token =>
        simp only [h3] at h
        cases h4 : getChain sc ["access", "user", "roles"] with
        | error e1 =>
          simp only [h4, Except.error.injEq] at h
          subst h
          exact getChain_error_cases _ _ _ h4
        | ok roles =>
          simp only [h4] at h
          cases roles with
          | str s => simp only [Except.error.injEq] at h; exact Or.inr h.symm
          | obj kvs => simp only [Except.error.injEq] at h; exact Or.inr h.symm
          | arr rs =>
            cases h5 : roleSegsOf rs with
            | error e1 =>
              simp only [h5, Except.error.injEq] at h
              subst h
              exact roleSegsOf_error_cases _ _ h5
            | ok segs =>
              simp only [h5] at h
              cases h6 : getKey access_user "name" with
              | error e1 =>
                simp only [h6, Except.error.injEq] at h
                subst h
                exact getKey_error_cases _ _ _ h6
              | ok u =>
                simp only [h6] at h
                cases h7 : getKey access_user "email" with
                | error e1 =>
                  simp only [h7, Except.error.injEq] at h
                  subst h
                  exact getKey_error_cases _ _ _ h7
                | ok em =>
                  simp only [h7] at h
                  cases h8 : getKey access_user "RAX-AUTH:domainId" with
                  | error e1 =>
                    simp only [h8, Except.error.injEq] at h
                    subst h
                    exact getKey_error_cases _ _ _ h8
                  | ok d =>
                    simp only [h8] at h
                    cases h9 : getChain access_token ["tenant", "name"] with
                    | error e1 =>
                      simp only [h9, Except.error.injEq] at h
                      subst h
                      exact getChain_error_cases _ _ _ h9
                    | ok tn =>
                      simp only [h9] at h
                      cases h10 : getChain access_token ["tenant", "id"] with
                      | error e1 =>
                        simp only [h10, Except.error.injEq] at h
                        subst h
                        exact getChain_error_cases _ _ _ h10
                      | ok ti => simp [h10] at h

/-- A response body whose catalog translation raises propagates that
exception from `_rxt_auth`, leaving the environment unwritten. -/
theorem postPhase_parseFail (up : Upstream) (c : Creds) (at_ : String) (body : JVal)
    (sid : Option String) (st : ProcState) (posts : List PostRecord) (env : Env)
    (r : HttpResponse) (sc : JVal) (e : RxtErr)
    (hcond : (truthyS sid && at_ == "passwordCredentials") = false)
    (hup : up posts.length = .resp r)
    (h401 : (r.status == 401 && (lookupA r.headers "WWW-Authenticate").isSome) = false)
    (herr : ((400 ≤ r.status && r.status < 600 : Bool)) = false)
    (hbody : r.jsonBody = some sc)
    (hparse : parse_service_catalog env sc = .error e) :
    rxt_auth_postPhase up c at_ body sid st posts env =
      ⟨.error e, st, posts ++ [⟨body, st.rxt_headers⟩], env⟩ := by
  simp only [rxt_auth_postPhase, hcond, Bool.false_eq_true, if_false, hup]
  rw [if_neg (by simp [h401]), if_neg (by simp [herr])]
  simp [hbody, hparse]

/-- Against an upstream whose replies all stay within the structured
model (`goodReply`), one `_rxt_auth` call on a cache-miss state ends in
one of exactly four ways: MFA-pending, success, `requests.HTTPError`
with the state unchanged, or the catalog-malformed `Unauthorized`. -/
theorem step_classify (up : Upstream) (now : Int) (c : Creds)
    (hgood : ∀ n, goodReply (up n) = true)
    (at_ : String) (body : JVal) (sid : Option String) (st2 : ProcState)
    (posts : List PostRecord) (env : Env)
    (hcache : lookupA st2.serviceCache c.hashed_auth_payload = none) :
    (∃ st3 posts2 env2,
      rxt_auth_step up now c at_ body sid st2 posts env = ⟨.ok true, st3, posts2, env2⟩) ∨
    (∃ st3 posts2 env2,
      rxt_auth_step up now c at_ body sid st2 posts env = ⟨.ok false, st3, posts2, env2⟩) ∨
    rxt_auth_step up now c at_ body sid st2 posts env =
      ⟨.error .httpError, st2, posts ++ [⟨body, st2.rxt_headers⟩], env⟩ ∨
    rxt_auth_step up now c at_ body sid st2 posts env =
      ⟨.error (.unauthorized catalogMsg), st2, posts ++ [⟨body, st2.rxt_headers⟩], env⟩ := by
  rw [step_miss up now c at_ body sid st2 posts env hcache]
  by_cases hsh : (truthyS sid && at_ == "passwordCredentials") = true
  · exact Or.inl ⟨st2, posts, env,
      postPhase_shortcut up c at_ body sid st2 posts env hsh⟩
  · have hcond : (truthyS sid && at_ == "passwordCredentials") = false := by
      revert hsh; cases truthyS sid && at_ == "passwordCredentials" <;> simp
    have hg := hgood posts.length
    cases hu : up posts.length with
    | connFail => rw [hu] at hg; simp [goodReply] at hg
    | resp r =>
      rw [hu] at hg
      by_cases h401 : (r.status == 401 && (lookupA r.headers "WWW-Authenticate").isSome) = true
      · have h401' := h401
        rw [Bool.and_eq_true] at h401'
        obtain ⟨hs401, hsome⟩ := h401'
        obtain ⟨w, hw⟩ := Option.isSome_iff_exists.mp hsome
        have hst : r.status = 401 := by simpa using hs401
        exact Or.inl ⟨_, _, _,
          postPhase_mfa up c at_ body sid st2 posts env r w hcond hu hst hw⟩
      · have h401f : (r.status == 401 && (lookupA r.headers "WWW-Authenticate").isSome) = false := by
          revert h401
          cases r.status == 401 && (lookupA r.headers "WWW-Authenticate").isSome <;> simp
        by_cases herr : ((400 ≤ r.status && r.status < 600 : Bool)) = true
        · exact Or.inr (Or.inr (Or.inl
            (postPhase_httpError up c at_ body sid st2 posts env r hcond hu h401f herr)))
        · have herrf : ((400 ≤ r.status && r.status < 600 : Bool)) = false := by
            revert herr
            cases ((400 ≤ r.status && r.status < 600 : Bool)) <;> simp
          simp only [goodReply, h401f, herrf, Bool.false_or] at hg
          cases hb : r.jsonBody with
          | none => simp [hb] at hg
          | some sc =>
            cases hpe : pscExtract sc with
            | ok tup =>
              obtain ⟨u, em, d, tn, ti, opt⟩ := tup
              have hparse : parse_service_catalog env sc =
                  .ok (set_federation_env env u em d tn ti opt) := by
                simp [parse_service_catalog, hpe]
              exact Or.inr (Or.inl ⟨_, _, _,
                postPhase_success up c at_ body sid st2 posts env r sc _
                  hcond hu h401f herrf hb hparse⟩)
            | error e =>
              rcases pscExtract_error_cases sc e hpe with rfl | rfl
              · have hparse : parse_service_catalog env sc =
                    .error (.unauthorized catalogMsg) := by
                  simp [parse_service_catalog, hpe]
                exact Or.inr (Or.inr (Or.inr
                  (postPhase_parseFail up c at_ body sid st2 posts env r sc _
                    hcond hu h401f herrf hb hparse)))
              · simp [hb, hpe] at hg

/-- C9 counterexample: a connection-level failure of the upstream POST
is not caught anywhere (`except requests.HTTPError` does not catch it):
the call terminates with a raw exception, not a structured outcome —
contradicting the claim that network failures surface as structured
outcomes. -/
theorem C9_connection_error_counterexample :
    (authenticate upConn 5 stEmpty pPlain).result = .raised .connectionError ∧
    structuredOutcome (authenticate upConn 5 stEmpty pPlain).result = false := ⟨rfl, rfl⟩

/-- C9 (amended): on a cache-miss state, every failure arising from
upstream HTTP status codes or from catalogs with missing required fields
is surfaced as a structured outcome (auth handler response or keystone
`Unauthorized`), the one-shot api-key fallback being the only local
recovery; but this holds only for replies within the structured model —
connection-level failures (timeouts), non-JSON success bodies, and
type-mismatched catalog shapes propagate as raw exceptions. -/
theorem C9_structured_outcomes_amended :
    ∀ (up : Upstream) (now : Int) (st : ProcState) (p dv : JVal) (c : Creds)
      (sel : SelResult) (st1 : ProcState),
      getChain p ["user", "domain", "name"] = .ok dv →
      jEqStr dv rxtDomain = true →
      rxt_init p = .ok c →
      rxt_enter c st = .ok (sel, st1) →
      lookupA st1.serviceCache c.hashed_auth_payload = none →
      (∀ n, goodReply (up n) = true) →
      structuredOutcome (authenticate up now st p).result = true := by
  intro up now st p dv c sel st1 hd hdv hi he hcache hgood
  rw [authenticate_flow up now st p dv c sel st1 hd hdv hi he, main_eq_rec]
  have inner : ∀ (body : JVal) (posts : List PostRecord) (env : Env),
      structuredOutcome (doneToCall (rxt_auth_rec (998 + 1) up now c "passwordCredentials"
        body sel.session_id st1 posts env)).result = true := by
    intro body posts env
    rcases step_classify up now c hgood "passwordCredentials" body sel.session_id st1 posts env
        hcache with
      ⟨st3, posts2, env2, hstep⟩ | ⟨st3, posts2, env2, hstep⟩ | hstep | hstep
    · rw [rec_ok_true 998 up now c _ _ _ _ _ _ _ _ _ hstep]; rfl
    · rw [rec_ok_false 998 up now c _ _ _ _ _ _ _ _ _ hstep]; rfl
    · rw [rec_http_other 998 up now c _ _ _ _ _ _ _ _ _ hstep rfl]; rfl
    · rw [rec_err_other 998 up now c _ _ _ _ _ _ _ _ _ _ hstep (by simp)]; rfl
  rcases step_classify up now c hgood sel.auth_type sel.auth_data sel.session_id st1 [] []
      hcache with
    ⟨st3, posts2, env2, hstep⟩ | ⟨st3, posts2, env2, hstep⟩ | hstep | hstep
  · rw [rec_ok_true 999 up now c _ _ _ _ _ _ _ _ _ hstep]; rfl
  · rw [rec_ok_false 999 up now c _ _ _ _ _ _ _ _ _ hstep]; rfl
  · rcases (rxt_enter_cases c st sel st1 he).2.2.2 with hk | hk | hk
    · rw [rec_http_other 999 up now c _ _ _ _ _ _ _ _ _ hstep (by rw [hk]; rfl)]; rfl
    · obtain ⟨pb, hpb⟩ := rxt_enter_apiKey_pw c st sel st1 he hk
      rw [hk] at hstep ⊢
      rw [rec_http_api 999 up now c sel.auth_data sel.session_id st1 [] [] st1
        ([] ++ [⟨sel.auth_data, st1.rxt_headers⟩]) [] pb hstep hpb]
      have := inner pb ([] ++ [⟨sel.auth_data, st1.rxt_headers⟩]) []
      revert this
      cases hres : rxt_auth_rec (998 + 1) up now c "passwordCredentials" pb sel.session_id st1
        ([] ++ [⟨sel.auth_data, st1.rxt_headers⟩]) [] with
      | mk res st4 posts4 env4 retries4 =>
        cases res with
        | ok r2 => intro this; exact this
        | error e2 => intro this; exact this
    · rw [rec_http_other 999 up now c _ _ _ _ _ _ _ _ _ hstep (by rw [hk]; rfl)]; rfl
  · rw [rec_err_other 999 up now c _ _ _ _ _ _ _ _ _ _ hstep (by simp)]; rfl

/-- Witness for C9 (amended): against an upstream that always answers
403 (a structured-model reply), the plain-password call ends in a
structured outcome. -/
theorem C9_structured_outcomes_amended_witness :
    structuredOutcome (authenticate upFail403 5 stEmpty pPlain).result = true :=
  C9_structured_outcomes_amended upFail403 5 stEmpty pPlain (.str rxtDomain) credsPlain
    ⟨"passwordCredentials", passwordBody "bob" (.str "hunter2"), none⟩ stEmpty
    rfl rfl rfl rfl rfl (fun _ => rfl)

/-- C10: the outbound header dict is class-level state mutated in place
and never cleared, so it survives across `authenticate` calls of
different users within the process.  Concretely: bob's call sends no
headers when run directly, but sends alice's `X-SessionId` header when
an unrelated passcode call of alice ran earlier in the same process —
two runs of the same call with identical inputs send different outbound
headers, and the `X-SessionId` entry is still present after the second
call (it is never removed). -/
theorem C10_shared_header_interference :
    (authenticate upOK 5 stSessAlice pPlain).posts.map PostRecord.headers = [[]] ∧
    (authenticate upOK 5 (authenticate upFail403 5 stSessAlice pPass).st pPlain).posts.map
      PostRecord.headers = [[("X-SessionId", "sess42")]] ∧
    lookupA (authenticate upOK 5
      (authenticate upFail403 5 stSessAlice pPass).st pPlain).st.rxt_headers
      "X-SessionId" = some "sess42" ∧
    (authenticate upOK 5 stSessAlice pPlain).posts.map PostRecord.headers ≠
      (authenticate upOK 5 (authenticate upFail403 5 stSessAlice pPass).st pPlain).posts.map
        PostRecord.headers := by
  refine ⟨rfl, rfl, rfl, ?_⟩
  intro h
  rw [show (authenticate upOK 5 stSessAlice pPlain).posts.map PostRecord.headers =
    [[]] from rfl] at h
  rw [show (authenticate upOK 5 (authenticate upFail403 5 stSessAlice pPass).st pPlain).posts.map
    PostRecord.headers = [[("X-SessionId", "sess42")]] from rfl] at h
  simp at h

end Rxt
